import Mathlib

/-!
# Verification of the terminal emulator core (codelaboratoryltd/terminal)

This file is a shallow embedding, in Lean 4, of the byte-stream parser, the
escape-sequence interpreter and the grid model of the Go terminal emulator,
together with proofs settling the frozen claims C1..C10.

Conventions of the embedding:
* Go strings and runes are represented as `List Nat` of Unicode code points;
  Go byte slices as `List Nat` of byte values.
* Go `int` arithmetic is modelled with `Int`; fields that provably stay
  non-negative (the cursor coordinates, which are only written through
  clamping code paths) are stored as `Nat`.
* Statements that would make the Go program panic (out-of-range slice
  indexing) set a `panicked` flag; once the flag is set the byte loop stops
  consuming input, mirroring the crash of the reading goroutine.
* UI-thread marshalling (`fyne.Do f`) is modelled as executing `f` directly.
* External callbacks (registered OSC/APC handlers, the config listeners, the
  printer and `os.Chdir`) cannot be represented as Go closures; the state
  instead records an event for each invocation, and the handler tables are
  modelled by their key sets.
-/

set_option linter.unusedVariables false

namespace Terminal

/-- The code points of a string literal, for writing Go strings in the model. -/
def str (s : String) : List Nat := s.data.map Char.toNat

/-- Byte 0x1B, the `asciiEscape` constant of the source. -/
def asciiEscape : Nat := 27

/-- Byte 0x07, the `asciiBell` constant of the source. -/
def asciiBell : Nat := 7

/-- Byte 0x08, the `asciiBackspace` constant of the source. -/
def asciiBackspace : Nat := 8

/-- The `noEscape` sentinel of `parseState.esc` (source: `noEscape = 5000`). -/
def noEscape : Int := 5000

/-- The `tabWidth` constant of the source. -/
def tabWidth : Nat := 8

/-- `strings.Split(s, ";")` for a one-rune separator: Go returns the list of
substrings between occurrences of the separator (`[""]` for the empty
string). -/
def goSplit (sep : Nat) : List Nat → List (List Nat)
  | [] => [[]]
  | c :: rest =>
    let tail := goSplit sep rest
    if c = sep then [] :: tail
    else match tail with
      | [] => [[c]]
      | t :: ts => (c :: t) :: ts

/-- `strings.SplitN(s, ";", 2)`: the part before the first `;` and, when a
`;` occurs, the remainder after it. -/
def goSplitN2 (sep : Nat) : List Nat → List Nat × Option (List Nat)
  | [] => ([], none)
  | c :: rest =>
    if c = sep then ([], some rest)
    else
      let (hd, tl) := goSplitN2 sep rest
      (c :: hd, tl)

/-- Is the code point a decimal digit? -/
def isDigit (c : Nat) : Bool := 48 ≤ c && c ≤ 57

/-- Decimal value of a digit list (most significant first). -/
def digitsVal (l : List Nat) : Nat :=
  l.foldl (fun acc c => acc * 10 + (c - 48)) 0

/-- `strconv.Atoi`: parses an optional sign followed by at least one digit;
on any syntax error Go returns `0` with an error which every caller in the
source ignores, so the model returns `0` there. -/
def goAtoi (s : List Nat) : Int :=
  match s with
  | [] => 0
  | c :: rest =>
    if c = 43 then -- '+'
      if rest ≠ [] ∧ rest.all (isDigit ·) then (digitsVal rest : Int) else 0
    else if c = 45 then -- '-'
      if rest ≠ [] ∧ rest.all (isDigit ·) then -(digitsVal rest : Int) else 0
    else if s.all (isDigit ·) then (digitsVal s : Int) else 0

/-- Digit extraction for `goItoa`, structurally recursive on a fuel that the
wrapper instantiates with `n` itself (enough, as the digit count of a
positive `n` is at most `n`). -/
def goItoaAux : Nat → Nat → List Nat
  | 0, _ => []
  | fuel + 1, n => if n = 0 then [] else goItoaAux fuel (n / 10) ++ [n % 10 + 48]

/-- `strconv.Itoa` on a non-negative value: the code points of its decimal
representation (most significant digit first). -/
def goItoa (n : Nat) : List Nat :=
  if n = 0 then [48] else goItoaAux n n

/-- `trimLeftZeros` (source: escape.go): drops the leading run of runes that
are not greater than `'0'`; all such runes are single-byte, so the rune count
it computes equals the byte offset it slices at. -/
def trimLeftZeros (s : List Nat) : List Nat :=
  s.dropWhile (fun r => decide (r ≤ 48))

/-- `utf8.DecodeRune` of the Go standard library: the first code point of the
byte list and the number of bytes it occupies.  An empty input yields
`(RuneError, 0)`; an invalid or incomplete encoding yields `(RuneError, 1)`.
`RuneError = 0xFFFD`. -/
def decodeRune : List Nat → Nat × Nat
  | [] => (0xFFFD, 0)
  | b0 :: rest =>
    if b0 < 0x80 then (b0, 1)
    else if b0 < 0xC2 then (0xFFFD, 1) -- continuation byte or overlong lead
    else if b0 ≤ 0xDF then
      match rest with
      | b1 :: _ =>
        if 0x80 ≤ b1 ∧ b1 ≤ 0xBF then ((b0 - 0xC0) * 64 + (b1 - 0x80), 2)
        else (0xFFFD, 1)
      | [] => (0xFFFD, 1)
    else if b0 ≤ 0xEF then
      -- 0xE0 must be followed by 0xA0..0xBF, 0xED by 0x80..0x9F (no surrogates)
      let lo := if b0 = 0xE0 then 0xA0 else 0x80
      let hi := if b0 = 0xED then 0x9F else 0xBF
      match rest with
      | b1 :: b2 :: _ =>
        if lo ≤ b1 ∧ b1 ≤ hi ∧ 0x80 ≤ b2 ∧ b2 ≤ 0xBF then
          ((b0 - 0xE0) * 4096 + (b1 - 0x80) * 64 + (b2 - 0x80), 3)
        else (0xFFFD, 1)
      | _ => (0xFFFD, 1)
    else if b0 ≤ 0xF4 then
      -- 0xF0 must be followed by 0x90..0xBF, 0xF4 by 0x80..0x8F (max U+10FFFF)
      let lo := if b0 = 0xF0 then 0x90 else 0x80
      let hi := if b0 = 0xF4 then 0x8F else 0xBF
      match rest with
      | b1 :: b2 :: b3 :: _ =>
        if lo ≤ b1 ∧ b1 ≤ hi ∧ 0x80 ≤ b2 ∧ b2 ≤ 0xBF ∧ 0x80 ≤ b3 ∧ b3 ≤ 0xBF then
          ((b0 - 0xF0) * 262144 + (b1 - 0x80) * 4096 + (b2 - 0x80) * 64 + (b3 - 0x80), 4)
        else (0xFFFD, 1)
      | _ => (0xFFFD, 1)
    else (0xFFFD, 1)

/-- Number of bytes of the UTF-8 encoding of a code point (Go `utf8.RuneLen`
for the valid ranges; the code points stored in the parser buffer all come
from `decodeRune` and are valid). -/
def utf8Size (r : Nat) : Nat :=
  if r < 0x80 then 1 else if r < 0x800 then 2 else if r < 0x10000 then 3 else 4

/-- UTF-8 encoding of a code point (Go's conversion of a rune to bytes). -/
def utf8EncodeRune (r : Nat) : List Nat :=
  if r < 0x80 then [r]
  else if r < 0x800 then [0xC0 + r / 64, 0x80 + r % 64]
  else if r < 0x10000 then [0xE0 + r / 4096, 0x80 + r / 64 % 64, 0x80 + r % 64]
  else [0xF0 + r / 262144, 0x80 + r / 4096 % 64, 0x80 + r / 64 % 64, 0x80 + r % 64]

/-- Byte length of a Go string given as its code points. -/
def utf8Len (s : List Nat) : Nat := (s.map utf8Size).sum

/-! ## Data model

The cell, style and grid types mirror `widget.TextGridCell`,
`widget.TextGridRow` and the `Terminal` struct fields that the parser and
interpreter read or write. -/

/-- Semantic reference to a `color.Color` value produced by the interpreter.
The theme-resolved ANSI palette entries are kept symbolic (the renderer
resolves them); direct values keep their Go dynamic type (`color.RGBA`,
`color.Gray`, `color.White`). -/
inductive TermColor where
  | themeAnsi (bright : Bool) (idx : Nat)
  | themeForeground
  | themeDisabledButton
  | rgb (r g b : Nat)
  | gray (y : Nat)
  | white
  deriving DecidableEq, Repr

/-- A cell style.  `termStyle` is the style built by
`widget2.NewTermTextGridStyle` (internal/widget, constructor not included in
src/: modelled as the record of the six arguments the source passes, with the
constant highlight bit-mask omitted); `customStyle` is
`widget.CustomTextGridStyle` as built by `escapeInsertChars`. -/
inductive CellStyle where
  | termStyle (fg bg : Option TermColor) (blinking bold underlined : Bool)
  | customStyle (fg bg : Option TermColor)
  deriving DecidableEq, Repr

/-- `widget.TextGridCell`: a rune and a style.  The Go zero value has rune 0
and a nil style. -/
structure Cell where
  rune : Nat := 0
  style : Option CellStyle := none
  deriving DecidableEq, Repr

/-- `widget.TextGridRow`: its cells (the row-level style is never used by the
source). A `TextGridRow{}` zero value has no cells. -/
abbrev TGRow := List Cell

/-- The `Config` struct: title, rows and columns (`uint` in Go). -/
structure Config where
  title : List Nat := []
  rows : Nat := 0
  cols : Nat := 0
  deriving DecidableEq, Repr

/-- The `charSet` enumeration. -/
inductive CharSet where
  | ansii
  | decSpecialGraphics
  | alternate
  deriving DecidableEq, Repr

/-- Which mouse handler pair is installed in `onMouseDown`/`onMouseUp`
(`?9` installs the X10 pair, `?1000` the V200 pair, reset installs nil). -/
inductive MouseMode where
  | x10
  | v200
  deriving DecidableEq, Repr

/-- The `parseState` struct. -/
structure ParseState where
  code : List Nat := []
  esc : Int := noEscape
  osc : Bool := false
  vt100 : Nat := 0
  apc : Bool := false
  dcs : Bool := false
  printing : Bool := false
  dcsEscPending : Bool := false
  csi : Bool := false
  deriving DecidableEq, Repr

/-- Externally observable side effects other than writes to the PTY writer:
invocations of registered OSC/APC handlers, `os.Chdir`, listener
notification, print spooling and the bell. -/
inductive TermEvent where
  | oscHandler (n : Int) (data : List Nat)
  | apcHandler (key arg : List Nat)
  | chdir (uri : List Nat)
  | configNotify (cfg : Config)
  | printSpool (data : List Nat)
  | bellRing
  deriving DecidableEq, Repr

/-- The semantic state of a `Terminal`: the fields of the Go struct that the
parser/interpreter path reads or writes, plus
* `written` — the bytes written to the writer `t.in`,
* `events` — the recorded external side effects,
* `oscKeys`/`apcKeys` — the key sets of the handler tables (the handler
  bodies are arbitrary Go closures; an invocation is recorded as an event),
* `panicked` — a Go runtime panic occurred (processing stops),
* `usedDecrc` — ghost flag: the `ESC 8` restore branch has executed. -/
structure TermState where
  config : Config := {}
  content : List TGRow := []
  cursorRow : Nat := 0
  cursorCol : Nat := 0
  savedRow : Nat := 0
  savedCol : Nat := 0
  savedCursorRow : Nat := 0
  savedCursorCol : Nat := 0
  scrollTop : Int := 0
  scrollBottom : Int := 0
  currentFG : Option TermColor := none
  currentBG : Option TermColor := none
  backgroundColorOverride : Option TermColor := none
  bold : Bool := false
  blinking : Bool := false
  underlined : Bool := false
  bell : Bool := false
  cursorHidden : Bool := false
  bufferMode : Bool := false
  applicationCursorKeys : Bool := false
  mouseMode : Option MouseMode := none
  mouseSGR : Bool := false
  g0Charset : CharSet := .ansii
  g1Charset : CharSet := .ansii
  useG1CharSet : Bool := false
  newLineMode : Bool := false
  originMode : Bool := false
  bracketedPasteMode : Bool := false
  wrapAround : Bool := true
  wrapPending : Bool := false
  savedRows : Option (List TGRow) := none
  state : ParseState := {}
  printData : List Nat := []
  written : List Nat := []
  events : List TermEvent := []
  oscKeys : List Int := []
  apcKeys : List (List Nat) := []
  panicked : Bool := false
  usedDecrc : Bool := false
  deriving DecidableEq, Repr

attribute [ext] TermState

/-! ## Grid primitives

`t.content` is a fyne `widget.TextGrid` (wrapped by `TermGrid`); the source
uses its `Row`, `SetRow` and direct `Rows` access.  `gridRow`/`gridSetRow`
model the fyne methods: `Row` returns the zero row when the index is out of
range, `SetRow` ignores negative indices and pads with empty rows up to the
index before assigning. -/

/-- fyne `TextGrid.Row`. -/
def gridRow (c : List TGRow) (i : Int) : TGRow :=
  if i < 0 ∨ (c.length : Int) ≤ i then [] else c.getD i.toNat []

/-- fyne `TextGrid.SetRow`. -/
def gridSetRow (c : List TGRow) (i : Int) (row : TGRow) : List TGRow :=
  if i < 0 then c
  else
    let padded := c ++ List.replicate (i.toNat + 1 - c.length) []
    padded.set i.toNat row

/-- Direct assignment `Rows[i] = row`: panics when out of range. -/
def setRowDirect (c : List TGRow) (i : Int) (row : TGRow) : Option (List TGRow) :=
  if i < 0 ∨ (c.length : Int) ≤ i then none else some (c.set i.toNat row)

/-- The integers `hi, hi-1, …` (`count` of them), for Go `for ; … ; i--`
loops. -/
def intRangeDown (hi : Int) : Nat → List Int
  | 0 => []
  | n + 1 => hi :: intRangeDown (hi - 1) n

/-- The integers `lo, lo+1, …` (`count` of them), for Go `for ; … ; i++`
loops. -/
def intRangeUp (lo : Int) : Nat → List Int
  | 0 => []
  | n + 1 => lo :: intRangeUp (lo + 1) n

/-! ## Cursor movement and character output (escape.go, output.go) -/

/-- `moveCursor` (escape.go): clamps the requested position into the grid and
clears any pending wrap; a no-op while the size is unconfigured. -/
def moveCursor (st : TermState) (row col : Int) : TermState :=
  if st.config.cols = 0 ∨ st.config.rows = 0 then st
  else
    let col := if col < 0 then 0
      else if (st.config.cols : Int) ≤ col then (st.config.cols : Int) - 1 else col
    let row := if row < 0 then 0
      else if (st.config.rows : Int) ≤ row then (st.config.rows : Int) - 1 else row
    { st with wrapPending := false, cursorCol := col.toNat, cursorRow := row.toNat }

/-- Pad `content` with empty rows so that at least `scrollBottom+1` rows
exist (the `needed` loop shared by `scrollUp`/`scrollDown`). -/
def padToBottom (st : TermState) : List TGRow :=
  st.content ++ List.replicate ((st.scrollBottom + 1).toNat - st.content.length) []

/-- `scrollUp` (output.go): shift rows `(scrollTop, scrollBottom]` down one
and blank the top line of the region.  The row writes use direct indexing
`Rows[i] = …`, which panics outside the buffer. -/
def scrollUp (st : TermState) : TermState :=
  let c0 := padToBottom st
  let shifted := (intRangeDown st.scrollBottom (st.scrollBottom - st.scrollTop).toNat).foldlM
    (fun c i => setRowDirect c i (gridRow c (i - 1))) c0
  match shifted with
  | none => { st with panicked := true }
  | some c1 =>
    match setRowDirect c1 st.scrollTop [] with
    | none => { st with panicked := true }
    | some c2 => { st with content := c2 }

/-- `scrollDown` (output.go): shift rows `[scrollTop, scrollBottom)` up one
and blank the bottom line of the region. -/
def scrollDown (st : TermState) : TermState :=
  let c0 := padToBottom st
  let shifted := (intRangeUp st.scrollTop (st.scrollBottom - st.scrollTop).toNat).foldlM
    (fun c i => setRowDirect c i (gridRow c (i + 1))) c0
  match shifted with
  | none => { st with panicked := true }
  | some c1 =>
    match setRowDirect c1 st.scrollBottom [] with
    | none => { st with panicked := true }
    | some c2 => { st with content := c2 }

/-- `handleOutputLineFeed` (output.go). -/
def handleOutputLineFeed (st : TermState) : TermState :=
  if (st.cursorRow : Int) = st.scrollBottom then
    let st := scrollDown st
    if st.newLineMode then moveCursor st st.cursorRow 0 else st
  else if st.newLineMode then moveCursor st ((st.cursorRow : Int) + 1) 0
  else moveCursor st ((st.cursorRow : Int) + 1) st.cursorCol

/-- `handleOutputBackspace` (output.go). -/
def handleOutputBackspace (st : TermState) : TermState :=
  if (gridRow st.content st.cursorRow).length = 0 then st
  else moveCursor st st.cursorRow ((st.cursorCol : Int) - 1)

/-- `handleOutputCarriageReturn` (output.go). -/
def handleOutputCarriageReturn (st : TermState) : TermState :=
  moveCursor st st.cursorRow 0

/-- `ringBell` (output.go): sets the bell flag (a goroutine clears it again
after 300 ms, which the byte-level model does not time) and refreshes. -/
def ringBell (st : TermState) : TermState :=
  { st with bell := true, events := st.events ++ [.bellRing] }

/-- The style `widget2.NewTermTextGridStyle(currentFG, currentBG, mask,
blinking, bold, underlined)` as built throughout the interpreter. -/
def newTermStyle (st : TermState) : CellStyle :=
  .termStyle st.currentFG st.currentBG st.blinking st.bold st.underlined

/-- A blank cell with the current style, as built by `clearScreen` and the
row-padding loop of `handleOutputChar`. -/
def blankCell (st : TermState) : Cell :=
  { rune := 32, style := some (newTermStyle st) }

/-- `handleOutputChar` (output.go): perform a deferred wrap if pending,
materialize rows up to the cursor row and cells up to the cursor column,
place the rune, and advance the cursor (deferring the wrap at the last
column).  The two debug-only bounds checks of the source cannot fire after
the materialization loops and are omitted. -/
def handleOutputChar (st0 : TermState) (r : Nat) : TermState :=
  let st :=
    if st0.wrapPending then
      let st1 := { st0 with wrapPending := false }
      if st1.wrapAround then
        handleOutputLineFeed { st1 with cursorCol := 0 }
      else if 0 < st1.config.cols then { st1 with cursorCol := st1.config.cols - 1 }
      else st1
    else st0
  let content := st.content ++ List.replicate (st.cursorRow + 1 - st.content.length) []
  let cellStyle := newTermStyle st
  let row := content.getD st.cursorRow []
  let row := row ++ List.replicate (st.cursorCol + 1 - row.length)
    { rune := 32, style := some cellStyle }
  let row := row.set st.cursorCol { rune := r, style := some cellStyle }
  let content := content.set st.cursorRow row
  let st := { st with content := content }
  if (st.cursorCol : Int) = (st.config.cols : Int) - 1 then
    if st.wrapAround then
      { st with wrapPending := true,
                cursorCol := if 0 < st.config.cols then st.config.cols else st.cursorCol }
    else st
  else { st with cursorCol := st.cursorCol + 1 }

/-- The loop of `handleOutputTab`.  The Go loop `for cursorCol < end` calls
`handleOutputChar(' ')`; whenever the next tab stop fits within the
configured width the column strictly increases each iteration and the loop
runs at most `tabWidth` times, so the fuel makes the model exact there.
(When the tab stop exceeds the width the Go loop never terminates; the model
stops once the fuel is spent.) -/
def handleOutputTabGo : Nat → TermState → Nat → TermState
  | 0, st, _ => st
  | fuel + 1, st, endCol =>
    if st.cursorCol < endCol then handleOutputTabGo fuel (handleOutputChar st 32) endCol
    else st

/-- `handleOutputTab` (output.go). -/
def handleOutputTab (st : TermState) : TermState :=
  handleOutputTabGo (2 * tabWidth) st (st.cursorCol - st.cursorCol % tabWidth + tabWidth)

/-- `handleShiftOut` (output.go): switch to the G1 charset. -/
def handleShiftOut (st : TermState) : TermState := { st with useG1CharSet := true }

/-- `handleShiftIn` (output.go): switch to the G0 charset. -/
def handleShiftIn (st : TermState) : TermState := { st with useG1CharSet := false }

/-- The `decSpecialGraphics` map (output.go) for `ESC ( 0` graphics mode. -/
def decSpecialGraphics (r : Nat) : Option Nat :=
  match r with
  | 0x60 => some 0x25C6 | 0x61 => some 0x2592 | 0x62 => some 0x2409
  | 0x63 => some 0x240C | 0x64 => some 0x240D | 0x65 => some 0x240A
  | 0x66 => some 0x00B0 | 0x67 => some 0x00B1 | 0x68 => some 0x2424
  | 0x69 => some 0x240B | 0x6A => some 0x2518 | 0x6B => some 0x2510
  | 0x6C => some 0x250C | 0x6D => some 0x2514 | 0x6E => some 0x253C
  | 0x6F => some 0x23BA | 0x70 => some 0x23BB | 0x71 => some 0x2500
  | 0x72 => some 0x2500 | 0x73 => some 0x23BD | 0x74 => some 0x251C
  | 0x75 => some 0x2524 | 0x76 => some 0x2534 | 0x77 => some 0x252C
  | 0x78 => some 0x2502 | 0x79 => some 0x2264 | 0x7A => some 0x2265
  | 0x7B => some 0x03C0 | 0x7C => some 0x2260 | 0x7D => some 0x00A3
  | 0x7E => some 0x00B7 | _ => none

/-- The `charSetMap` (output.go): ANSII and Alternate map runes to
themselves; DEC special graphics maps through `decSpecialGraphics`. -/
def applyCharSet (cs : CharSet) (r : Nat) : Nat :=
  match cs with
  | .ansii => r
  | .alternate => r
  | .decSpecialGraphics => (decSpecialGraphics r).getD r

/-! ## SGR handling (color.go)

The terminals under verification run with `customTheme == nil` and no
background override (the `New()` defaults); the theme-colour lookups resolve
to the palette entry for the requested index in every branch of
`getBasicColor`/`getBrightColor`, which the model keeps symbolic as
`TermColor.themeAnsi`.  With `customTheme == nil`, `applyThemeAdjustments`
returns its argument unchanged. -/

/-- `strconv.Atoi` distinguishing the error case (`none`). -/
def goAtoiOpt (s : List Nat) : Option Int :=
  match s with
  | [] => none
  | c :: rest =>
    if c = 43 then
      if rest ≠ [] ∧ rest.all (isDigit ·) then some (digitsVal rest : Int) else none
    else if c = 45 then
      if rest ≠ [] ∧ rest.all (isDigit ·) then some (-(digitsVal rest : Int)) else none
    else if s.all (isDigit ·) then some (digitsVal s : Int) else none

/-- `getBasicColor` (color.go): ANSI palette entry 0–7 resolved through the
theme (with hard-coded fallbacks for themes without ANSI colours);
out-of-range indices yield `color.White`. -/
def getBasicColor (index : Int) : TermColor :=
  if index < 0 ∨ 8 ≤ index then .white else .themeAnsi false index.toNat

/-- `getBrightColor` (color.go): bright ANSI palette entry 8–15. -/
def getBrightColor (index : Int) : TermColor :=
  if index < 0 ∨ 8 ≤ index then .white else .themeAnsi true index.toNat

/-- `applyThemeAdjustments` (color.go): identity when `customTheme == nil`. -/
def applyThemeAdjustments (base : TermColor) : TermColor := base

/-- The `colourBands` table (color.go). -/
def colourBands : List Nat := [0x00, 0x5F, 0x87, 0xAF, 0xD7, 0xFF]

/-- `handleColorModeMap` (color.go): 256-colour palette lookup for
`38;5;n` / `48;5;n`. -/
def handleColorModeMap (st : TermState) (mode ids : List Nat) : TermState :=
  match goAtoiOpt ids with
  | none => st
  | some id =>
    let c : Option TermColor :=
      if id ≤ 7 then some (getBasicColor id)
      else if id ≤ 15 then some (getBrightColor (id - 8))
      else if id ≤ 231 then
        let n := (id - 16).toNat
        let b := n % 6
        let g := n / 6 % 6
        let r := n / 36
        some (applyThemeAdjustments (.rgb (colourBands.getD r 0) (colourBands.getD g 0)
          (colourBands.getD b 0)))
      else if id ≤ 255 then
        -- inc := 256 / 24 = 10 in Go integer division; customTheme is nil
        some (.gray ((id - 232).toNat * (256 / 24)))
      else none
    if mode = str "38" then { st with currentFG := c }
    else if mode = str "48" then { st with currentBG := c }
    else st

/-- `handleColorModeRGB` (color.go): direct colour for `38;2;r;g;b` /
`48;2;r;g;b`; the components go through Go's wrapping `uint8` conversion. -/
def handleColorModeRGB (st : TermState) (mode rs gs bs : List Nat) : TermState :=
  let r := ((goAtoi rs) % 256).toNat
  let g := ((goAtoi gs) % 256).toNat
  let b := ((goAtoi bs) % 256).toNat
  let c := applyThemeAdjustments (.rgb r g b)
  if mode = str "38" then { st with currentFG := some c }
  else if mode = str "48" then { st with currentBG := some c }
  else st

/-- `unicode.IsSpace` restricted to the Latin-1 range that `TrimSpace` can
meet in CSI parameters. -/
def isSpaceRune (c : Nat) : Bool :=
  c = 32 || (9 ≤ c && c ≤ 13) || c = 0x85 || c = 0xA0

/-- `strings.TrimSpace`. -/
def trimSpace (s : List Nat) : List Nat :=
  ((s.dropWhile (isSpaceRune ·)).reverse.dropWhile (isSpaceRune ·)).reverse

/-- `handleColorMode` (color.go): a single numeric SGR parameter. -/
def handleColorMode (st : TermState) (modeStr0 : List Nat) : TermState :=
  let modeStr := trimSpace modeStr0
  if modeStr = [] then st
  else if modeStr.take 2 = str "4:" then { st with underlined := true }
  else if modeStr.contains 58 then st -- other ':'-forms are ignored
  else if ¬ modeStr.all (isDigit ·) then st -- non-numeric tokens are ignored
  else
    let mode := goAtoi modeStr
    if mode = 0 then
      { st with currentBG := none, currentFG := none,
                bold := false, blinking := false, underlined := false }
    else if mode = 1 then { st with bold := true }
    else if mode = 4 then { st with underlined := true }
    else if mode = 5 then { st with blinking := true }
    else if mode = 24 then { st with underlined := false }
    else if mode = 7 then
      let bg := st.currentBG
      let fg := st.currentFG
      { st with
        currentBG := match fg with | none => some .themeForeground | some c => some c,
        currentFG := match bg with | none => some .themeDisabledButton | some c => some c }
    else if mode = 27 then
      let bg := st.currentBG
      let fg := st.currentFG
      { st with
        currentBG := if fg ≠ none then st.backgroundColorOverride else fg,
        currentFG := if bg ≠ none then none else bg }
    else if 30 ≤ mode ∧ mode ≤ 37 then { st with currentFG := some (getBasicColor (mode - 30)) }
    else if mode = 39 then { st with currentFG := none }
    else if 40 ≤ mode ∧ mode ≤ 47 then { st with currentBG := some (getBasicColor (mode - 40)) }
    else if mode = 49 then { st with currentBG := st.backgroundColorOverride }
    else if 90 ≤ mode ∧ mode ≤ 97 then { st with currentFG := some (getBrightColor (mode - 90)) }
    else if 100 ≤ mode ∧ mode ≤ 107 then { st with currentBG := some (getBrightColor (mode - 100)) }
    else st

/-- The indexed loop of `handleColorEscape`: `38`/`48` followed by a `5`
(with one more parameter) or a `2` (with three more) consume their
arguments; such a marker without its arguments (the `i+1 < len(modes)`
guard failing, or the inner shapes not matching) does nothing; every other
token goes through `handleColorMode`.  Each iteration consumes at least one
token, so fuel equal to the token count makes the model exact. -/
def handleColorModesGo : Nat → TermState → List (List Nat) → TermState
  | 0, st, _ => st
  | fuel + 1, st, l =>
    match l with
    | [] => st
    | mode :: rest =>
      if mode = [] then handleColorModesGo fuel st rest
      else if (mode = str "38" ∨ mode = str "48") ∧ rest ≠ [] then
        match rest with
        | next :: m2 :: rest3 =>
          if next = str "5" then
            handleColorModesGo fuel (handleColorModeMap st mode m2) rest3
          else if next = str "2" then
            match m2 :: rest3 with
            | r :: g :: b :: rest5 =>
              handleColorModesGo fuel (handleColorModeRGB st mode r g b) rest5
            | other2 => handleColorModesGo fuel st (next :: other2)
          else handleColorModesGo fuel st (next :: m2 :: rest3)
        | other => handleColorModesGo fuel st other
      else handleColorModesGo fuel (handleColorMode st mode) rest

/-- The SGR parameter loop at its exact fuel. -/
def handleColorModes (st : TermState) (l : List (List Nat)) : TermState :=
  handleColorModesGo l.length st l

/-- `handleColorEscape` (color.go): the SGR dispatcher for `CSI … m`. -/
def handleColorEscape (st : TermState) (message : List Nat) : TermState :=
  if message = [] ∨ message = str "0" then
    { st with currentBG := st.backgroundColorOverride, currentFG := none,
              bold := false, blinking := false, underlined := false }
  else if message.take 1 = str ">" ∨ message.take 1 = str "?" then st
  else handleColorModes st (goSplit 59 message)

/-! ## CSI handlers (escape.go) -/

/-- `escapeColorMode`. -/
def escapeColorMode (st : TermState) (msg : List Nat) : TermState :=
  handleColorEscape st msg

/-- `escapeDeleteChars` — `CSI n P` (DCH).  The slice `row.Cells[:cursorCol]`
panics when the cursor column exceeds the row length, and `row.Cells[right:]`
panics when a negative parameter makes `right` negative. -/
def escapeDeleteChars (st : TermState) (msg : List Nat) : TermState :=
  let i := goAtoi msg
  let i := if i = 0 then 1 else i
  let right := (st.cursorCol : Int) + i
  let row := gridRow st.content st.cursorRow
  if (row.length : Int) < (st.cursorCol : Int) then { st with panicked := true }
  else
    let cells := row.take st.cursorCol
    if right < (row.length : Int) then
      if right < 0 then { st with panicked := true }
      else
        let newRow := cells ++ row.drop right.toNat
        { st with content := gridSetRow st.content st.cursorRow newRow }
    else { st with content := gridSetRow st.content st.cursorRow cells }

/-- `escapeEraseInLine` — `CSI n K` (EL).  Mode 0 truncates the row at the
cursor; mode 1 replaces the first `cursorCol` cells with zero-valued cells;
mode 2 replaces the row by zero-valued cells of the same length; when the
cursor column is not inside the row, nothing happens. -/
def escapeEraseInLine (st : TermState) (msg : List Nat) : TermState :=
  let mode := goAtoi msg
  let row := gridRow st.content st.cursorRow
  if mode = 0 then
    if row.length ≤ st.cursorCol then st
    else { st with content := gridSetRow st.content st.cursorRow (row.take st.cursorCol) }
  else if mode = 1 then
    if row.length ≤ st.cursorCol then st
    else
      let newRow := List.replicate st.cursorCol ({} : Cell) ++ row.drop st.cursorCol
      { st with content := gridSetRow st.content st.cursorRow newRow }
  else if mode = 2 then
    if row.length ≤ st.cursorCol then st
    else
      let newRow := List.replicate row.length ({} : Cell)
      { st with content := gridSetRow st.content st.cursorRow newRow }
  else st

/-- `clearScreen` (escape.go): fill every configured row with blank cells of
the current style and home the cursor. -/
def clearScreen (st : TermState) : TermState :=
  let line : TGRow := List.replicate st.config.cols (blankCell st)
  let content := (List.range st.config.rows).foldl
    (fun c i => gridSetRow c (i : Int) line) st.content
  moveCursor { st with content := content } 0 0

/-- `clearScreenFromCursor` (escape.go): blank from the cursor to the end of
its row (padding the row to the configured width) and blank all following
rows. -/
def clearScreenFromCursor (st : TermState) : TermState :=
  let row := gridRow st.content st.cursorRow
  let from_ := if row.length < st.cursorCol then row.length else st.cursorCol
  let width := st.config.cols
  let blank := blankCell st
  let left := row.take from_
  let rightLen := width - from_
  let c1 := gridSetRow st.content st.cursorRow (left ++ List.replicate rightLen blank)
  let c2 := (intRangeUp ((st.cursorRow : Int) + 1) (st.config.rows - (st.cursorRow + 1))).foldl
    (fun c i => gridSetRow c i (List.replicate width blank)) c1
  { st with content := c2 }

/-- `clearScreenToCursor` (escape.go): blank from the start of the cursor row
up to (excluding) the cursor, pad to the configured width, and blank all
preceding rows. -/
def clearScreenToCursor (st : TermState) : TermState :=
  let row := gridRow st.content st.cursorRow
  let width := st.config.cols
  let blank := blankCell st
  let right := if st.cursorCol < row.length then row.drop st.cursorCol else []
  let leftBlanks := if width < st.cursorCol then width else st.cursorCol
  let combined := List.replicate leftBlanks blank ++ right
  let combined := if combined.length < width
    then combined ++ List.replicate (width - combined.length) blank else combined
  let c1 := gridSetRow st.content st.cursorRow combined
  let c2 := (intRangeUp 0 st.cursorRow).foldl
    (fun c i => gridSetRow c i (List.replicate width blank)) c1
  { st with content := c2 }

/-- `escapeEraseInScreen` — `CSI n J` (ED); mode 3 also resets the scroll
region and empties the row buffer. -/
def escapeEraseInScreen (st : TermState) (msg : List Nat) : TermState :=
  let mode := goAtoi msg
  if mode = 0 then clearScreenFromCursor st
  else if mode = 1 then clearScreenToCursor st
  else if mode = 2 then clearScreen st
  else if mode = 3 then
    let newBottom : Int := if 0 < st.config.rows then (st.config.rows : Int) - 1 else 0
    let st := { st with content := ([] : List TGRow), scrollTop := (0 : Int), scrollBottom := newBottom }
    moveCursor st 0 0
  else st

/-- `escapeInsertChars` — `CSI n @` (ICH).  `make` with a negative count and
the direct row indexing/slicing panic outside their ranges. -/
def escapeInsertChars (st : TermState) (msg : List Nat) : TermState :=
  let chars := goAtoi msg
  let chars := if chars = 0 then 1 else chars
  if chars < 0 then { st with panicked := true }
  else
    let newCells : TGRow := List.replicate chars.toNat
      { rune := 32, style := some (.customStyle st.currentFG st.currentBG) }
    if st.content.length ≤ st.cursorRow then { st with panicked := true }
    else
      let row := st.content.getD st.cursorRow []
      if row.length < st.cursorCol then { st with panicked := true }
      else
        let newRow := row.take st.cursorCol ++ newCells ++ row.drop st.cursorCol
        { st with content := st.content.set st.cursorRow newRow }

/-- `escapeInsertLines` — `CSI n L` (IL), with the source's loop bounds
(`i > cursorRow-rows+1`, then blanking down to `cursorRow`). -/
def escapeInsertLines (st : TermState) (msg : List Nat) : TermState :=
  let rows := goAtoi msg
  let rows := if rows = 0 then 1 else rows
  let stop := (st.cursorRow : Int) - rows + 1
  let c1 := (intRangeDown st.scrollBottom (st.scrollBottom - stop).toNat).foldl
    (fun c i => gridSetRow c i (gridRow c (i - rows))) st.content
  let i1 := if stop < st.scrollBottom then stop else st.scrollBottom
  let c2 := (intRangeDown i1 (i1 - (st.cursorRow : Int) + 1).toNat).foldl
    (fun c i => gridSetRow c i []) c1
  { st with content := c2 }

/-- `escapeMoveCursorUp` — `CSI n A`. -/
def escapeMoveCursorUp (st : TermState) (msg : List Nat) : TermState :=
  let rows := goAtoi msg
  let rows := if rows = 0 then 1 else rows
  moveCursor st ((st.cursorRow : Int) - rows) st.cursorCol

/-- `escapeMoveCursorDown` — `CSI n B`. -/
def escapeMoveCursorDown (st : TermState) (msg : List Nat) : TermState :=
  let rows := goAtoi msg
  let rows := if rows = 0 then 1 else rows
  moveCursor st ((st.cursorRow : Int) + rows) st.cursorCol

/-- `escapeMoveCursorRight` — `CSI n C`. -/
def escapeMoveCursorRight (st : TermState) (msg : List Nat) : TermState :=
  let cols := goAtoi msg
  let cols := if cols = 0 then 1 else cols
  moveCursor st st.cursorRow ((st.cursorCol : Int) + cols)

/-- `escapeMoveCursorLeft` — `CSI n D`. -/
def escapeMoveCursorLeft (st : TermState) (msg : List Nat) : TermState :=
  let cols := goAtoi msg
  let cols := if cols = 0 then 1 else cols
  moveCursor st st.cursorRow ((st.cursorCol : Int) - cols)

/-- `escapeMoveCursorRow` — `CSI n d` (VPA), origin-mode aware. -/
def escapeMoveCursorRow (st : TermState) (msg : List Nat) : TermState :=
  let row := goAtoi msg
  if st.originMode then moveCursor st (st.scrollTop + (row - 1)) st.cursorCol
  else moveCursor st (row - 1) st.cursorCol

/-- `escapeMoveCursorCol` — `CSI n G` (CHA). -/
def escapeMoveCursorCol (st : TermState) (msg : List Nat) : TermState :=
  moveCursor st st.cursorRow (goAtoi msg - 1)

/-- `escapeMoveCursor` — `CSI H`/`CSI f` (CUP), origin-mode aware; without a
`;` the cursor homes. -/
def escapeMoveCursor (st : TermState) (msg : List Nat) : TermState :=
  if ¬ msg.contains 59 then moveCursor st 0 0
  else
    let parts := goSplit 59 msg
    let row := goAtoi (parts.getD 0 [])
    let col := if parts.length = 2 then goAtoi (parts.getD 1 []) else 1
    if st.originMode then moveCursor st (st.scrollTop + (row - 1)) (col - 1)
    else moveCursor st (row - 1) (col - 1)

/-- The `47` (alternate screen) branch of `escapePrivateMode`: on enable,
snapshot the rows and cursor (once) and clear; on disable, restore the
snapshot and the saved cursor. -/
def altScreen47 (st : TermState) (enable : Bool) : TermState :=
  if enable then
    let st := if st.savedRows = none then
        { st with savedRows := some st.content, savedCursorRow := st.cursorRow, savedCursorCol := st.cursorCol }
      else st
    moveCursor { st with content := [] } 0 0
  else
    match st.savedRows with
    | some rows =>
      let st := moveCursor { st with content := rows } st.savedCursorRow st.savedCursorCol
      { st with savedRows := none }
    | none => st

/-- One DEC private mode token of `escapePrivateMode`. -/
def privateModeOne (st : TermState) (mode : List Nat) (enable : Bool) : TermState :=
  if mode = str "1" then { st with applicationCursorKeys := enable }
  else if mode = str "7" then { st with wrapAround := enable }
  else if mode = str "6" then { st with originMode := enable }
  else if mode = str "20" then { st with newLineMode := enable }
  else if mode = str "25" then { st with cursorHidden := ¬ enable }
  else if mode = str "1048" then
    if enable then { st with savedCursorRow := st.cursorRow, savedCursorCol := st.cursorCol }
    else moveCursor st st.savedCursorRow st.savedCursorCol
  else if mode = str "9" then
    { st with mouseMode := if enable then some .x10 else none }
  else if mode = str "1000" then
    { st with mouseMode := if enable then some .v200 else none }
  else if mode = str "1006" then { st with mouseSGR := enable }
  else if mode = str "1049" then
    let st := if enable then
        { st with savedCursorRow := st.cursorRow, savedCursorCol := st.cursorCol }
      else st
    altScreen47 st enable
  else if mode = str "47" then altScreen47 st enable
  else if mode = str "2004" then { st with bracketedPasteMode := enable }
  else st

/-- `escapePrivateMode` (escape.go): apply each `;`-separated token. -/
def escapePrivateMode (st : TermState) (msg : List Nat) (enable : Bool) : TermState :=
  (goSplit 59 msg).foldl (fun s m => privateModeOne s m enable) st

/-- `escapeMode` (escape.go): standard SM/RM; only `20` (LNM) is handled. -/
def escapeMode (st : TermState) (msg : List Nat) (enable : Bool) : TermState :=
  (goSplit 59 msg).foldl
    (fun s m => if m = str "20" then { s with newLineMode := enable } else s) st

/-- `escapePrivateModeOff` — `CSI … l`. -/
def escapePrivateModeOff (st : TermState) (msg : List Nat) : TermState :=
  if msg.take 1 = str "?" then escapePrivateMode st (msg.drop 1) false
  else escapeMode st msg false

/-- `escapePrivateModeOn` — `CSI … h`. -/
def escapePrivateModeOn (st : TermState) (msg : List Nat) : TermState :=
  if msg.take 1 = str "?" then escapePrivateMode st (msg.drop 1) true
  else escapeMode st msg true

/-- `escapeRestoreCursor` — `CSI u`. -/
def escapeRestoreCursor (st : TermState) (msg : List Nat) : TermState :=
  if msg ≠ [] then st
  else moveCursor st st.savedRow st.savedCol

/-- `escapeSaveCursor` — `CSI s`. -/
def escapeSaveCursor (st : TermState) (msg : List Nat) : TermState :=
  { st with savedRow := st.cursorRow, savedCol := st.cursorCol }

/-- `escapeSetScrollArea` — `CSI t ; b r` (DECSTBM).  With exactly two parts
the non-empty ones are parsed and decremented; otherwise the full screen is
used.  The stored margins are not clamped or ordered. -/
def escapeSetScrollArea (st : TermState) (msg : List Nat) : TermState :=
  let parts := goSplit 59 msg
  let start : Int := 0
  let stop : Int := (st.config.rows : Int) - 1
  let (start, stop) :=
    if parts.length = 2 then
      let p0 := parts.getD 0 []
      let p1 := parts.getD 1 []
      (if p0 ≠ [] then goAtoi p0 - 1 else start,
       if p1 ≠ [] then goAtoi p1 - 1 else stop)
    else (start, stop)
  { st with scrollTop := start, scrollBottom := stop }

/-- `escapeScrollUp` — `CSI n S` (SU): move the cursor up within the region,
then shift the region contents up by `n` rows (via `SetRow`). -/
def escapeScrollUp (st : TermState) (msg : List Nat) : TermState :=
  let lines := goAtoi msg
  let lines := if lines = 0 then 1 else lines
  let newCursorRow := (st.cursorRow : Int) - lines
  let newCursorRow := if newCursorRow < 0 then 0 else newCursorRow
  let newCursorRow := if newCursorRow < st.scrollTop then st.scrollTop else newCursorRow
  let st := moveCursor st newCursorRow st.cursorCol
  let c1 := (intRangeUp st.scrollTop (st.scrollBottom - lines - st.scrollTop + 1).toNat).foldl
    (fun c i => gridSetRow c i (gridRow c (i + lines))) st.content
  let c2 := (intRangeUp (st.scrollBottom - lines + 1) ((lines : Int)).toNat).foldl
    (fun c i => gridSetRow c i []) c1
  { st with content := c2 }

/-- `escapeScrollDown` — `CSI n T` (SD). -/
def escapeScrollDown (st : TermState) (msg : List Nat) : TermState :=
  let lines := goAtoi msg
  let lines := if lines = 0 then 1 else lines
  let c1 := (intRangeDown st.scrollBottom (st.scrollBottom - (st.scrollTop + lines) + 1).toNat).foldl
    (fun c i => gridSetRow c i (gridRow c (i - lines))) st.content
  let count2 := if lines ≤ st.scrollBottom - st.scrollTop + 1 then lines
    else st.scrollBottom - st.scrollTop + 1
  let c2 := (intRangeUp st.scrollTop count2.toNat).foldl
    (fun c i => gridSetRow c i []) c1
  { st with content := c2 }

/-- `escapeDeviceStatusReport` — `CSI 5 n` / `CSI 6 n` write their reply to
the writer `t.in`. -/
def escapeDeviceStatusReport (st : TermState) (msg : List Nat) : TermState :=
  if msg = str "5" then
    { st with written := st.written ++ [asciiEscape] ++ str "[0n" }
  else if msg = str "6" then
    let reply := [asciiEscape] ++ str "[" ++ goItoa (st.cursorRow + 1) ++ str ";" ++
      goItoa (st.cursorCol + 1) ++ str "R"
    { st with written := st.written ++ reply }
  else st

/-- `escapePrinterMode` — `CSI 5 i` / `CSI 4 i`; on exit the collected bytes
are spooled to the printer (recorded as an event) and cleared. -/
def escapePrinterMode (st : TermState) (code : List Nat) : TermState :=
  if code = str "5" then { st with state := { st.state with printing := true } }
  else if code = str "4" then
    let st := { st with state := { st.state with printing := false } }
    let st := if st.printData ≠ [] then
        { st with events := st.events ++ [.printSpool st.printData] }
      else st
    { st with printData := [] }
  else st

/-- `escapeDeviceAttribute` — `CSI c` (DA1) and `CSI > c` (DA2) replies. -/
def escapeDeviceAttribute (st : TermState) (code : List Nat) : TermState :=
  if code = [] then st
  else if code.take 1 = str ">" then
    { st with written := st.written ++ [asciiEscape] ++ str "[>0;115;0c" }
  else { st with written := st.written ++ [asciiEscape] ++ str "[?6c" }

/-- The `escapes` dispatch table (escape.go): final byte to handler. -/
def dispatchEscape (st : TermState) (fin : Nat) (msg : List Nat) : TermState :=
  if fin = 0x40 then escapeInsertChars st msg        -- '@'
  else if fin = 0x41 then escapeMoveCursorUp st msg  -- 'A'
  else if fin = 0x42 then escapeMoveCursorDown st msg -- 'B'
  else if fin = 0x43 then escapeMoveCursorRight st msg -- 'C'
  else if fin = 0x44 then escapeMoveCursorLeft st msg -- 'D'
  else if fin = 0x64 then escapeMoveCursorRow st msg -- 'd'
  else if fin = 0x48 then escapeMoveCursor st msg    -- 'H'
  else if fin = 0x66 then escapeMoveCursor st msg    -- 'f'
  else if fin = 0x47 then escapeMoveCursorCol st msg -- 'G'
  else if fin = 0x68 then escapePrivateModeOn st msg -- 'h'
  else if fin = 0x4C then escapeInsertLines st msg   -- 'L'
  else if fin = 0x6C then escapePrivateModeOff st msg -- 'l'
  else if fin = 0x6D then escapeColorMode st msg     -- 'm'
  else if fin = 0x6E then escapeDeviceStatusReport st msg -- 'n'
  else if fin = 0x4A then escapeEraseInScreen st msg -- 'J'
  else if fin = 0x4B then escapeEraseInLine st msg   -- 'K'
  else if fin = 0x50 then escapeDeleteChars st msg   -- 'P'
  else if fin = 0x72 then escapeSetScrollArea st msg -- 'r'
  else if fin = 0x73 then escapeSaveCursor st msg    -- 's'
  else if fin = 0x53 then escapeScrollUp st msg      -- 'S'
  else if fin = 0x54 then escapeScrollDown st msg    -- 'T'
  else if fin = 0x75 then escapeRestoreCursor st msg -- 'u'
  else if fin = 0x69 then escapePrinterMode st msg   -- 'i'
  else if fin = 0x63 then escapeDeviceAttribute st msg -- 'c'
  else st

/-- `handleEscape` (escape.go): trim leading low runes, then dispatch on
`[]rune(code)[len(code)-1]` — `len` is the byte length, so a code containing
a multi-byte rune makes the index exceed the rune count and panic; for
all-ASCII codes it is the last rune, and `code[:len(code)-1]` is the rest. -/
def handleEscape (st : TermState) (code0 : List Nat) : TermState :=
  let code := trimLeftZeros code0
  if code = [] then st
  else if utf8Len code = code.length then
    match code.getLast? with
    | some fin => dispatchEscape st fin code.dropLast
    | none => st
  else { st with panicked := true }

/-- `handleVT100` (escape.go): charset designation. -/
def handleVT100 (st : TermState) (code : List Nat) : TermState :=
  if code = str "(A" then { st with g0Charset := .alternate }
  else if code = str ")A" then { st with g1Charset := .alternate }
  else if code = str "(B" then { st with g0Charset := .ansii }
  else if code = str ")B" then { st with g1Charset := .ansii }
  else if code = str "(0" then { st with g0Charset := .decSpecialGraphics }
  else if code = str ")0" then { st with g1Charset := .decSpecialGraphics }
  else st

/-- `resetTerminal` (escape.go): full reset, equivalent to RIS (`ESC c`). -/
def resetTerminal (st : TermState) : TermState :=
  let st := { st with
    wrapAround := true, wrapPending := false, newLineMode := false,
    cursorHidden := false, applicationCursorKeys := false, mouseMode := none,
    currentBG := none, currentFG := none,
    bold := false, blinking := false, underlined := false,
    g0Charset := CharSet.ansii, g1Charset := CharSet.ansii, useG1CharSet := false,
    scrollTop := 0,
    scrollBottom := if 0 < st.config.rows then (st.config.rows : Int) - 1 else st.scrollBottom,
    savedRows := none, bufferMode := false }
  clearScreen (moveCursor st 0 0)

/-! ## OSC, APC, DCS and printing (part_006, apc.go, output.go) -/

/-- `setTitle` (part_006): store the title and notify the listeners with the
updated config (`onConfigure`). -/
def setTitle (st : TermState) (title : List Nat) : TermState :=
  let st := { st with config := { st.config with title := title } }
  { st with events := st.events ++ [.configNotify st.config] }

/-- `handleOSC` (part_006): parse `n;data`; a registered handler for `n` is
invoked (recorded as an event) and replaces the built-in behaviour; built-ins
are `0`/`2` set-title, `1` ignored, `7` change directory (`os.Chdir`,
recorded as an event) and `133` shell-integration markers (log-only). -/
def handleOSC (st : TermState) (code : List Nat) : TermState :=
  if code = [] then st
  else
    match goSplitN2 59 code with
    | (_, none) => st
    | (numPart, some data) =>
      match goAtoiOpt numPart with
      | none => st
      | some n =>
        if n ∈ st.oscKeys then { st with events := st.events ++ [.oscHandler n data] }
        else if n = 0 then setTitle st data
        else if n = 1 then st
        else if n = 2 then setTitle st data
        else if n = 7 then { st with events := st.events ++ [.chdir data] }
        else st

/-- `RegisterOSCHandler` (part_002): record the command number in the
handler table. -/
def registerOSCHandler (st : TermState) (command : Int) : TermState :=
  { st with oscKeys := st.oscKeys ++ [command] }

/-- `handleAPC` (apc.go): dispatch on the first registered key that the code
starts with. -/
def handleAPC (st : TermState) (code : List Nat) : TermState :=
  match st.apcKeys.find? (fun k => code.take k.length = k) with
  | some k => { st with events := st.events ++ [.apcHandler k (code.drop k.length)] }
  | none => st

/-- `strings.ReplaceAll(s, ESC ESC, ESC)`: collapse doubled escapes left to
right (apc.go, tmux passthrough). -/
def collapseEsc : List Nat → List Nat
  | a :: b :: rest =>
    if a = asciiEscape ∧ b = asciiEscape then asciiEscape :: collapseEsc rest
    else a :: collapseEsc (b :: rest)
  | l => l

/-- UTF-8 encoding of a rune string (Go `[]byte(inner)`). -/
def utf8EncodeStr (s : List Nat) : List Nat := (s.map utf8EncodeRune).flatten

/-- `handleDCS` (apc.go): tmux/screen passthrough.  Payloads without an ESC
are fast-pathed through `handleOutputChar`; others are re-fed to
`handleOutput` (the `rec` parameter ties the recursive knot). -/
def handleDCS (rec : TermState → List Nat → TermState) (st : TermState)
    (code : List Nat) : TermState :=
  if code.take 5 = str "tmux;" then
    let inner := collapseEsc (code.drop 5)
    if inner.contains asciiEscape then rec st (utf8EncodeStr inner)
    else inner.foldl handleOutputChar st
  else if code.take 7 = str "screen;" then
    let inner := code.drop 7
    if inner.contains asciiEscape then rec st (utf8EncodeStr inner)
    else inner.foldl handleOutputChar st
  else st

/-- `parseAPC` (escape.go/output.go): accumulate until NUL terminates. -/
def parseAPC (st : TermState) (r : Nat) : TermState :=
  if r = 0 then
    let st := handleAPC st st.state.code
    { st with state := { st.state with code := [], apc := false } }
  else { st with state := { st.state with code := st.state.code ++ [r] } }

/-- `parseDCS` (output.go): accumulate (NUL ignored); termination arrives via
`ESC \`. -/
def parseDCS (st : TermState) (r : Nat) : TermState :=
  if r = 0 then st
  else { st with state := { st.state with code := st.state.code ++ [r] } }

/-- `parseOSC` (output.go): accumulate until BEL or NUL terminates. -/
def parseOSC (st : TermState) (r : Nat) : TermState :=
  if r = asciiBell ∨ r = 0 then
    let st := handleOSC st st.state.code
    { st with state := { st.state with code := [], osc := false } }
  else { st with state := { st.state with code := st.state.code ++ [r] } }

/-- `parsePrinting` (output.go) applied to the bytes of one decoded rune.
The in-loop `ESC[4i` detection needs `i+3 < size`, which cannot hold for the
one-byte ESC rune (and multi-byte runes contain no ESC byte), so the loop
only appends; the trailing suffix check then handles the exit sequence. -/
def parsePrinting (st : TermState) (bytes : List Nat) : TermState :=
  let st := { st with printData := st.printData ++ bytes }
  if 4 ≤ st.printData.length ∧
      st.printData.drop (st.printData.length - 4) = [asciiEscape] ++ str "[4i" then
    let st := { st with printData := st.printData.take (st.printData.length - 4) }
    let st := escapePrinterMode st (str "4")
    { st with state := { st.state with esc := noEscape } }
  else st

/-- `parseEscape` (output.go): accumulate CSI parameter/intermediate bytes;
a final byte `0x40–0x7E` dispatches `handleEscape` and resets the state. -/
def parseEscape (st : TermState) (r : Nat) : TermState :=
  let st := { st with state := { st.state with code := st.state.code ++ [r] } }
  if 0x40 ≤ r ∧ r ≤ 0x7E then
    let st := handleEscape st st.state.code
    { st with state := { st.state with code := [], esc := noEscape } }
  else st

/-- `parseEscState` (output.go): the byte immediately after a bare ESC.
Returns the state and the `shouldContinue` flag (`true` only for `[`).
The `8` (DECRC) case assigns the saved coordinates directly — without
clamping and without touching `wrapPending` — and sets the ghost flag. -/
def parseEscState (rec : TermState → List Nat → TermState) (st : TermState)
    (r : Nat) : TermState × Bool :=
  if r = 0x5B then (st, true) -- '['
  else if r = 0x5C then -- '\' (ST)
    let st := if st.state.osc then
        let st := handleOSC st st.state.code
        { st with state := { st.state with osc := false } }
      else st
    let st := if st.state.apc then
        let st := handleAPC st st.state.code
        { st with state := { st.state with apc := false } }
      else st
    let st := if st.state.dcs then
        let st := handleDCS rec st st.state.code
        { st with state := { st.state with dcs := false } }
      else st
    ({ st with state := { st.state with code := [] } }, false)
  else if r = 0x5D then ({ st with state := { st.state with osc := true } }, false) -- ']'
  else if r = 0x50 then ({ st with state := { st.state with dcs := true } }, false) -- 'P'
  else if r = 0x28 ∨ r = 0x29 then -- '(' / ')'
    ({ st with state := { st.state with vt100 := r } }, false)
  else if r = 0x37 then -- '7' DECSC
    ({ st with savedRow := st.cursorRow, savedCol := st.cursorCol }, false)
  else if r = 0x38 then -- '8' DECRC: direct assignment
    ({ st with cursorRow := st.savedRow, cursorCol := st.savedCol, usedDecrc := true }, false)
  else if r = 0x44 then -- 'D' IND
    (if (st.cursorRow : Int) < st.scrollBottom then
      moveCursor st ((st.cursorRow : Int) + 1) st.cursorCol
     else scrollDown st, false)
  else if r = 0x45 then -- 'E' NEL
    (if (st.cursorRow : Int) < st.scrollBottom then
      moveCursor st ((st.cursorRow : Int) + 1) 0
     else moveCursor (scrollDown st) st.scrollBottom 0, false)
  else if r = 0x4D then -- 'M' RI
    (if st.scrollTop < (st.cursorRow : Int) then
      moveCursor st ((st.cursorRow : Int) - 1) st.cursorCol
     else scrollUp st, false)
  else if r = 0x63 then (resetTerminal st, false) -- 'c' RIS
  else if r = 0x5F then ({ st with state := { st.state with apc := true } }, false) -- '_'
  else (st, false) -- '=', '>' and unknown bytes

/-- The body of the `handleOutput` loop for one decoded rune at loop index
`i` (Go maintains `i` = byte offset of the rune minus one); `bytes` are the
rune's bytes for the printing collector. -/
def processRune (rec : TermState → List Nat → TermState) (st : TermState)
    (i : Int) (r : Nat) (bytes : List Nat) : TermState :=
  if st.state.printing then parsePrinting st bytes
  else if r = 0x84 then -- IND (8-bit C1)
    if (st.cursorRow : Int) < st.scrollBottom then
      moveCursor st ((st.cursorRow : Int) + 1) st.cursorCol
    else scrollDown st
  else if r = 0x85 then -- NEL (8-bit C1)
    if (st.cursorRow : Int) < st.scrollBottom then
      moveCursor st ((st.cursorRow : Int) + 1) 0
    else moveCursor (scrollDown st) st.scrollBottom 0
  else if r = 0x8D then -- RI (8-bit C1)
    if st.scrollTop < (st.cursorRow : Int) then
      moveCursor st ((st.cursorRow : Int) - 1) st.cursorCol
    else scrollUp st
  else if r = 0x90 then { st with state := { st.state with dcs := true } }
  else if r = 0x9B then { st with state := { st.state with csi := true } }
  else if r = 0x9D then { st with state := { st.state with osc := true } }
  else if r = 0x9F then { st with state := { st.state with apc := true } }
  else if st.state.dcs then
    if st.state.dcsEscPending then
      if r = 0x5C then
        let st := handleDCS rec st st.state.code
        { st with state := { st.state with dcs := false, code := [], dcsEscPending := false } }
      else
        let st := { st with state :=
          { st.state with code := st.state.code ++ [asciiEscape], dcsEscPending := false } }
        if r = asciiEscape then { st with state := { st.state with dcsEscPending := true } }
        else parseDCS st r
    else if r = asciiEscape then { st with state := { st.state with dcsEscPending := true } }
    else parseDCS st r
  else if st.state.csi then
    let st := parseEscape st r
    if st.state.esc = noEscape then { st with state := { st.state with csi := false } } else st
  else if r = asciiEscape then { st with state := { st.state with esc := i } }
  else if st.state.esc = i - 1 then
    let (st, cont) := parseEscState rec st r
    if cont then st else { st with state := { st.state with esc := noEscape } }
  else if st.state.apc then parseAPC st r
  else if st.state.osc then parseOSC st r
  else if st.state.vt100 ≠ 0 then
    let st' := handleVT100 st [st.state.vt100, r]
    { st' with state := { st'.state with vt100 := 0 } }
  else if st.state.esc ≠ noEscape then parseEscape st r
  else if r = 7 then ringBell st
  else if r = 8 then handleOutputBackspace st
  else if r = 10 ∨ r = 11 ∨ r = 12 then handleOutputLineFeed st
  else if r = 13 then handleOutputCarriageReturn st
  else if r = 9 then handleOutputTab st
  else if r = 0x0E then handleShiftOut st
  else if r = 0x0F then handleShiftIn st
  else if st.useG1CharSet then handleOutputChar st (applyCharSet st.g1Charset r)
  else handleOutputChar st (applyCharSet st.g0Charset r)

/-- The byte loop of `handleOutput`: decode a rune, skip it when it is an
invalid byte outside printing mode, process it, and continue with the rest.
`ofs` is the byte offset of the head of `buf` (the Go loop variable `i`
equals `ofs - 1`); the returned `Int` is the final value of `i`.  The fuel is
instantiated with the byte count, which suffices because every iteration
consumes at least one byte; after a panic the remaining bytes are returned
unprocessed. -/
def runChunk (rec : TermState → List Nat → TermState) :
    Nat → TermState → List Nat → Int → TermState × List Nat × Int
  | 0, st, buf, ofs => (st, buf, ofs - 1)
  | fuel + 1, st, buf, ofs =>
    if st.panicked then (st, buf, ofs - 1)
    else
      match buf with
      | [] => (st, [], ofs - 1)
      | _ :: _ =>
        let (r, size) := decodeRune buf
        let st' :=
          if r = 0xFFFD ∧ size = 1 ∧ ¬ st.state.printing then st
          else processRune rec st (ofs - 1) r (buf.take size)
        runChunk rec fuel st' (buf.drop size) (ofs + size)

/-- `handleOutput` (output.go) with explicit fuel bounding the nesting depth
of DCS passthrough re-feeds (each level needs one unit; the byte loop itself
is bounded by the chunk length).  The source's selection clearing, nil-state
initialization and trace logging do not touch the semantic state.  Returns
the final state and the remaining (returned) bytes. -/
def handleOutputFuel : Nat → TermState → List Nat → TermState × List Nat
  | 0, st, buf => (st, buf)
  | fuel + 1, st, buf =>
    let (st, rest, i) :=
      runChunk (fun s b => (handleOutputFuel fuel s b).1) buf.length st buf 0
    let st := if st.state.esc ≠ noEscape ∧ ¬ st.panicked then
        { st with state := { st.state with esc := st.state.esc - i } }
      else st
    (st, rest)

/-- `handleOutput` with enough fuel deeper than any nesting the chunk and pending code can produce. -/
def handleOutput (st : TermState) (buf : List Nat) : TermState × List Nat :=
  handleOutputFuel (buf.length + st.state.code.length + 2) st buf

/-- The `run` loop of part_002 restricted to its data flow: each read chunk
is prepended with the retained `leftOver` tail before being handed to
`handleOutput`, whose return value becomes the next `leftOver`. -/
def feedChunks (st : TermState) (chunks : List (List Nat)) : TermState × List Nat :=
  chunks.foldl (fun (acc : TermState × List Nat) chunk =>
    handleOutput acc.1 (acc.2 ++ chunk)) (st, [])

/-- A terminal as built by `New()` (wrap-around on, empty handler tables,
empty grid) after its first size configuration: `Resize` stores the
dimensions and, the scroll bottom still being zero, tracks `rows-1`. -/
def initialTerminal (rows cols : Nat) : TermState :=
  { config := { rows := rows, cols := cols },
    scrollBottom := if 0 < rows then (rows : Int) - 1 else 0 }

/-- `encodeMouse` (mouse source file, appended in osc_test.go): `button` is
the 1-indexed button (0 meaning release), `p = (pcol, prow)` is the 1-based
cell position computed by `getTermPosition` (the pixel-to-cell conversion is
rendering geometry outside the byte-level model).  The modifier bits are
added to the legacy byte `btn` first; the SGR branch then starts from `btn`
and adds the same bits again.  Byte arithmetic wraps modulo 256. -/
def encodeMouse (st : TermState) (button : Int) (shift alt ctrl : Bool)
    (pcol prow : Nat) : List Nat :=
  let btn : Nat := if button = 0 then 3 else ((button % 256).toNat + 255) % 256
  let btn := if shift then (btn + 4) % 256 else btn
  let btn := if alt then (btn + 8) % 256 else btn
  let btn := if ctrl then (btn + 16) % 256 else btn
  if st.mouseSGR then
    let b : Nat := btn + (if shift then 4 else 0) + (if alt then 8 else 0) +
      (if ctrl then 16 else 0)
    let sfx : Nat := if button = 0 then 109 else 77 -- 'm' for release, 'M' otherwise
    [asciiEscape] ++ str "[<" ++ goItoa b ++ str ";" ++ goItoa pcol ++ str ";" ++
      goItoa prow ++ [sfx]
  else [asciiEscape, 91, 77, (32 + btn) % 256, (32 + pcol) % 256, (32 + prow) % 256]

/-- Modelled from the spec: the `CSI n M` (DL) handler is missing from the
source files (`'M'` is not in the `escapes` table; only its test `TestCSI_DL`
and the IL handler are present).  Per §4.3 "`L` IL: insert n blank lines at
cursor within scroll region; `M` DL: delete n lines": delete `n` lines at
the cursor inside the scroll region by shifting the lines below up and
blanking the freed lines at the bottom of the region. -/
def escapeDeleteLines (st : TermState) (msg : List Nat) : TermState :=
  let n := goAtoi msg
  let n := if n = 0 then 1 else n
  let c1 := (intRangeUp st.cursorRow (st.scrollBottom - n - st.cursorRow + 1).toNat).foldl
    (fun c i => gridSetRow c i (gridRow c (i + n))) st.content
  let firstBlank := if (st.cursorRow : Int) < st.scrollBottom - n + 1
    then st.scrollBottom - n + 1 else (st.cursorRow : Int)
  let c2 := (intRangeUp firstBlank (st.scrollBottom - firstBlank + 1).toNat).foldl
    (fun c i => gridSetRow c i []) c1
  { st with content := c2 }

/-- Parse a cursor-position report `ESC [ a ; b R` with the CSI parameter
grammar the interpreter itself uses (accumulate to the final byte, split the
parameters on `;`, `Atoi` each), recovering the reported pair. -/
def parseCPRReply (bytes : List Nat) : Option (Int × Int) :=
  match bytes with
  | 27 :: 91 :: rest =>
    match rest.getLast? with
    | some 82 =>
      (match goSplit 59 rest.dropLast with
       | [a, b] => some (goAtoi a, goAtoi b)
       | _ => none)
    | _ => none
  | _ => none

/-! ## Decimal and splitting lemmas -/

theorem goItoaAux_eq_digits : ∀ fuel n, n ≤ fuel →
    goItoaAux fuel n = ((Nat.digits 10 n).map (· + 48)).reverse := by
  intro fuel
  induction fuel with
  | zero => intro n hn; interval_cases n; simp [goItoaAux]
  | succ f ih =>
    intro n hn
    by_cases h0 : n = 0
    · simp [goItoaAux, h0]
    · have hdiv : n / 10 ≤ f := by
        have := Nat.div_lt_self (Nat.pos_of_ne_zero h0) (by norm_num : 1 < 10)
        omega
      rw [goItoaAux, if_neg h0, ih _ hdiv,
        Nat.digits_def' (by norm_num : 1 < 10) (Nat.pos_of_ne_zero h0)]
      simp

/-- `goItoa` agrees with the `Nat.digits` characterization of the decimal
representation. -/
theorem goItoa_eq_digits (n : Nat) :
    goItoa n = if n = 0 then [48] else ((Nat.digits 10 n).map (· + 48)).reverse := by
  unfold goItoa
  split
  · rfl
  · exact goItoaAux_eq_digits n n le_rfl

theorem goItoa_ne_nil (n : Nat) : goItoa n ≠ [] := by
  rw [goItoa_eq_digits]
  split
  · simp
  · simpa using Nat.digits_ne_nil_iff_ne_zero.mpr (by assumption)

theorem goItoa_mem_digit {n c : Nat} (h : c ∈ goItoa n) : 48 ≤ c ∧ c ≤ 57 := by
  rw [goItoa_eq_digits] at h
  split at h
  · simp at h; omega
  · simp only [List.mem_reverse, List.mem_map] at h
    obtain ⟨d, hd, rfl⟩ := h
    have := Nat.digits_lt_base (by norm_num) hd
    omega

theorem foldr_eq_ofDigits (l : List Nat) :
    l.foldr (fun d acc => acc * 10 + d) 0 = Nat.ofDigits 10 l := by
  induction l with
  | nil => simp [Nat.ofDigits]
  | cons d L ih =>
    simp only [List.foldr_cons, ih, Nat.ofDigits_cons]
    omega

theorem digitsVal_goItoa (n : Nat) : digitsVal (goItoa n) = n := by
  rw [goItoa_eq_digits]
  split
  · simp [digitsVal]
    omega
  · unfold digitsVal
    rw [List.foldl_reverse, List.foldr_map]
    simp only [Nat.add_sub_cancel]
    rw [foldr_eq_ofDigits, Nat.ofDigits_digits]

theorem goItoa_all_isDigit (n : Nat) : (goItoa n).all (isDigit ·) = true := by
  rw [List.all_eq_true]
  intro c hc
  have := goItoa_mem_digit hc
  simp [isDigit]
  omega

theorem goAtoi_goItoa (n : Nat) : goAtoi (goItoa n) = n := by
  have hall := goItoa_all_isDigit n
  rcases hh : goItoa n with _ | ⟨c, rest⟩
  · exact absurd hh (goItoa_ne_nil n)
  · have hc : 48 ≤ c ∧ c ≤ 57 := goItoa_mem_digit (by rw [hh]; exact List.mem_cons_self c rest)
    have h43 : c ≠ 43 := by omega
    have h45 : c ≠ 45 := by omega
    have := digitsVal_goItoa n
    rw [hh] at this hall
    simp [goAtoi, h43, h45, hall, this]

theorem goAtoiOpt_goItoa (n : Nat) : goAtoiOpt (goItoa n) = some n := by
  have hall := goItoa_all_isDigit n
  rcases hh : goItoa n with _ | ⟨c, rest⟩
  · exact absurd hh (goItoa_ne_nil n)
  · have hc : 48 ≤ c ∧ c ≤ 57 := goItoa_mem_digit (by rw [hh]; exact List.mem_cons_self c rest)
    have h43 : c ≠ 43 := by omega
    have h45 : c ≠ 45 := by omega
    have := digitsVal_goItoa n
    rw [hh] at this hall
    simp [goAtoiOpt, h43, h45, hall, this]

theorem sep_not_mem_goItoa (n : Nat) : 59 ∉ goItoa n := by
  intro h
  have := goItoa_mem_digit h
  omega

/-- The most significant digit of a nonzero number is not `'0'`, so
`trimLeftZeros` keeps a code that starts with it. -/
theorem goItoa_head_gt_48 {n : Nat} (h : n ≠ 0) {c : Nat} {rest : List Nat}
    (hh : goItoa n = c :: rest) : 48 < c := by
  have hne : Nat.digits 10 n ≠ [] := Nat.digits_ne_nil_iff_ne_zero.mpr h
  have hlast := Nat.getLast_digit_ne_zero 10 h
  rw [goItoa_eq_digits, if_neg h] at hh
  have hform : (Nat.digits 10 n).getLast hne + 48 = c := by
    have h1 : ((Nat.digits 10 n).map (· + 48)).reverse.head? = some c := by
      rw [hh]; rfl
    rw [List.head?_reverse, List.getLast?_map] at h1
    rw [List.getLast?_eq_getLast _ hne] at h1
    simpa using h1
  omega

theorem goSplit_sepFree {sep : Nat} {l : List Nat} (h : sep ∉ l) :
    goSplit sep l = [l] := by
  induction l with
  | nil => rfl
  | cons c rest ih =>
    simp only [List.mem_cons, not_or] at h
    have hcs : ¬ c = sep := fun e => h.1 e.symm
    rw [goSplit, ih h.2]
    simp [hcs]

theorem goSplit_append {sep : Nat} {a rest : List Nat} (h : sep ∉ a) :
    goSplit sep (a ++ sep :: rest) = a :: goSplit sep rest := by
  induction a with
  | nil => simp [goSplit]
  | cons c t ih =>
    simp only [List.mem_cons, not_or] at h
    have hcs : ¬ c = sep := fun e => h.1 e.symm
    rw [List.cons_append, goSplit, ih h.2]
    simp [hcs]

theorem goSplitN2_append {sep : Nat} {a rest : List Nat} (h : sep ∉ a) :
    goSplitN2 sep (a ++ sep :: rest) = (a, some rest) := by
  induction a with
  | nil => simp [goSplitN2]
  | cons c t ih =>
    simp only [List.mem_cons, not_or] at h
    have hcs : ¬ c = sep := fun e => h.1 e.symm
    rw [List.cons_append, goSplitN2, ih h.2]
    simp [hcs]

/-! ## Claim C5 — DSR 6n round trip -/

/-- Claim C5: for every terminal state, processing `CSI 6 n` writes to the
writer exactly the bytes `ESC [ row ; col R` with `row = cursorRow+1` and
`col = cursorCol+1` at the time of the query, and parsing the decimal
parameters of that emitted reply recovers exactly the pair
`(cursorRow+1, cursorCol+1)` — the encode/parse round trip is the
identity. -/
theorem dsr6_report_roundtrip (st : TermState) :
    handleEscape st (str "6n") =
      { st with written := st.written ++ ([asciiEscape] ++ str "[" ++
        goItoa (st.cursorRow + 1) ++ str ";" ++ goItoa (st.cursorCol + 1) ++ str "R") } ∧
    parseCPRReply ([asciiEscape] ++ str "[" ++ goItoa (st.cursorRow + 1) ++ str ";" ++
        goItoa (st.cursorCol + 1) ++ str "R")
      = some ((st.cursorRow : Int) + 1, (st.cursorCol : Int) + 1) := by
  constructor
  · rfl
  · have h1 : [asciiEscape] ++ str "[" ++ goItoa (st.cursorRow + 1) ++ str ";" ++
        goItoa (st.cursorCol + 1) ++ str "R"
        = 27 :: 91 :: ((goItoa (st.cursorRow + 1) ++ 59 :: goItoa (st.cursorCol + 1)) ++ [82]) := by
      simp [str, asciiEscape]
    rw [h1]
    unfold parseCPRReply
    simp only [List.getLast?_concat, List.dropLast_concat]
    rw [goSplit_append (sep_not_mem_goItoa _), goSplit_sepFree (sep_not_mem_goItoa _)]
    simp [goAtoi_goItoa]

/-! ## Claim C9 — SGR mouse encoding -/

/-- Claim C9 (code evaluated at the failing input): with the SGR extension
(`?1006`) active, pressing button 1 with only shift held at cell (3,5) emits
`ESC [ < 8 ; 3 ; 5 M`: the button byte is 8, because the shift bit is added
once into the legacy byte and again in the SGR branch, not the claimed
`0 + 4 = 4` (`ESC [ < 4 ; 3 ; 5 M`). -/
theorem encodeMouse_sgr_shift_doubled :
    encodeMouse { initialTerminal 5 10 with mouseSGR := true } 1 true false false 3 5
      = [asciiEscape] ++ str "[<8;3;5M" ∧
    ([asciiEscape] ++ str "[<8;3;5M") ≠ [asciiEscape] ++ str "[<4;3;5M" := by
  decide

/-! ## Claim C4 — split UTF-8 retention -/

/-- Claim C4 (code evaluated at the failing input): the 3-byte code point
`0xE2 0x82 0xAC` ('€') split across two `handleOutput` calls is discarded
byte by byte instead of being retained: the first call returns an empty tail
(so the I/O loop's `leftOver` stays empty), and after feeding both chunks
through the `run`-loop data flow the grid still has no cell — the code point
never appears and the bytes are gone. -/
theorem utf8_split_discarded :
    (handleOutput (initialTerminal 1 10) [0xE2, 0x82]).2 = [] ∧
    (feedChunks (initialTerminal 1 10) [[0xE2, 0x82], [0xAC]]).1.content = [] ∧
    (feedChunks (initialTerminal 1 10) [[0xE2, 0x82], [0xAC]]).2 = [] := by
  decide

/-! ## Claim C7 — DL (delete lines) scenario -/

/-- Claim C7 (against the spec-modelled DL handler): Columns = 20, Rows = 3;
place "A", "B", "C" on rows 1–3 via CUP, home the cursor, and delete one
line: the rows then read "B", "C", blank. -/
theorem dl_scenario_rows_shift :
    (escapeDeleteLines (moveCursor (handleOutput (handleOutput (handleOutput
        (initialTerminal 3 20) ([27, 91] ++ str "1;1HA")).1 ([27, 91] ++ str "2;1HB")).1
        ([27, 91] ++ str "3;1HC")).1 0 0) (str "1")).content.map (fun r => r.map Cell.rune)
      = [[66], [67], []] := by
  decide

/-! ## Claim C3 — DECSTBM margins -/

/-- Claim C3 (counterexample): on a 3-row terminal, `CSI 5 ; 2 r` stores
`scrollTop = 4` and `scrollBottom = 1`: the handler clamps nothing, so
inverted parameters leave `scrollTop > scrollBottom` and a margin beyond
`Rows-1`, contradicting the claimed invariant. -/
theorem decstbm_counterexample :
    (handleEscape (initialTerminal 3 20) (str "5;2r")).scrollTop = 4 ∧
    (handleEscape (initialTerminal 3 20) (str "5;2r")).scrollBottom = 1 ∧
    ¬ ((handleEscape (initialTerminal 3 20) (str "5;2r")).scrollTop
        ≤ (handleEscape (initialTerminal 3 20) (str "5;2r")).scrollBottom) ∧
    ¬ ((handleEscape (initialTerminal 3 20) (str "5;2r")).scrollTop
        ≤ ((initialTerminal 3 20).config.rows : Int) - 1) := by
  decide

/-! ## Claim C10 — registered OSC handlers -/

/-- Claim C10: when a handler is registered for OSC command `n`, processing
an OSC sequence `n;data` invokes only that handler with the data (recorded
as the single new event) and skips the built-in behaviour: the state is
otherwise unchanged, so in particular `config.Title` is untouched and no
listener notification happens. -/
theorem osc_registered_handler_overrides (st : TermState) (n : Nat) (data : List Nat)
    (hreg : (n : Int) ∈ st.oscKeys) :
    handleOSC st (goItoa n ++ 59 :: data)
      = { st with events := st.events ++ [.oscHandler (n : Int) data] } ∧
    (handleOSC st (goItoa n ++ 59 :: data)).config.title = st.config.title := by
  have hne : goItoa n ++ 59 :: data ≠ [] := by simp
  have main : handleOSC st (goItoa n ++ 59 :: data)
      = { st with events := st.events ++ [.oscHandler (n : Int) data] } := by
    unfold handleOSC
    rw [if_neg hne, goSplitN2_append (sep_not_mem_goItoa n)]
    simp only [goAtoiOpt_goItoa]
    simp [hreg]
  exact ⟨main, by rw [main]⟩

/-- Witness for C10 at the inputs of `TestOSCHandler`: command 42 registered,
data `"test data"`. -/
theorem osc_registered_handler_overrides_witness :
    ((42 : Nat) : Int) ∈ (registerOSCHandler (initialTerminal 5 5) 42).oscKeys ∧
    (handleOSC (registerOSCHandler (initialTerminal 5 5) 42) (goItoa 42 ++ 59 :: str "test data")
      = { registerOSCHandler (initialTerminal 5 5) 42 with
          events := (registerOSCHandler (initialTerminal 5 5) 42).events ++
            [.oscHandler ((42 : Nat) : Int) (str "test data")] }) :=
  ⟨by decide,
   (osc_registered_handler_overrides (registerOSCHandler (initialTerminal 5 5) 42)
     42 (str "test data") (by decide)).1⟩

/-! ## Claim C1 — cursor bounds invariant -/

/-- Claim C1 (counterexample): on a 1×1 terminal, after consuming
`"a" ESC 7 CSI H ESC 8` the cursor column equals `Columns` while
`wrapPending` is false (ESC 8 restores the saved column — saved while a wrap
was pending — without clamping or setting the flag), and one more printed
character pushes `cursorCol` to `Columns + 1 = 2`, so both
`cursorCol ≤ Columns` and the `cursorCol = Columns → wrapPending`
implication fail on the code. -/
theorem cursor_invariant_counterexample :
    (handleOutput (initialTerminal 1 1) (str "a" ++ [27, 55, 27, 91, 72, 27, 56])).1.cursorCol
        = (initialTerminal 1 1).config.cols ∧
    (handleOutput (initialTerminal 1 1) (str "a" ++ [27, 55, 27, 91, 72, 27, 56])).1.wrapPending
        = false ∧
    (handleOutput (initialTerminal 1 1)
        (str "a" ++ [27, 55, 27, 91, 72, 27, 56] ++ str "b")).1.cursorCol = 2 ∧
    (initialTerminal 1 1).config.cols = 1 := by
  decide

/-! ## Grid lemmas -/

theorem gridRow_eq (g : List TGRow) (j : Int) :
    gridRow g j = if 0 ≤ j then (g[j.toNat]?).getD [] else [] := by
  unfold gridRow
  rcases lt_or_le j 0 with hj | hj
  · rw [if_pos (Or.inl hj), if_neg (by omega)]
  · rw [if_pos hj]
    by_cases hlen : (g.length : Int) ≤ j
    · rw [if_pos (Or.inr hlen), List.getElem?_eq_none (by omega)]
      rfl
    · rw [if_neg (by omega), List.getD_eq_getElem?_getD]

theorem gridRow_gridSetRow_ne (g : List TGRow) (i j : Int) (row : TGRow) (hij : j ≠ i) :
    gridRow (gridSetRow g i row) j = gridRow g j := by
  unfold gridSetRow
  by_cases hi : i < 0
  · rw [if_pos hi]
  · rw [if_neg hi]
    rw [gridRow_eq, gridRow_eq]
    by_cases hj : 0 ≤ j
    · rw [if_pos hj, if_pos hj]
      have hne : i.toNat ≠ j.toNat := by omega
      rw [List.getElem?_set_ne hne]
      by_cases hglen : j.toNat < g.length
      · rw [List.getElem?_append]
        simp [hglen]
      · have hg : g[j.toNat]? = none := List.getElem?_eq_none (by omega)
        rw [hg, List.getElem?_append, if_neg hglen]
        rcases lt_or_le (j.toNat - g.length) (i.toNat + 1 - g.length) with hr | hr
        · simp [List.getElem?_replicate, hr]
        · rw [List.getElem?_eq_none (by simp; omega)]
    · rw [if_neg hj, if_neg hj]

/-! ## Claim C6 — erase in line -/

/-- Claim C6 (counterexample): with "Hello" on a 5-column row and the cursor
at column 2, `CSI K` leaves the cursor row with exactly 2 cells ("He"): the
erased range is removed outright, not filled with blank cells of the current
SGR style up to the configured `Columns`. -/
theorem el_counterexample :
    (gridRow (handleEscape (moveCursor (handleOutput (initialTerminal 2 5) (str "Hello")).1 0 2)
        (str "K")).content 0).map Cell.rune = [72, 101] ∧
    ¬ ((gridRow (handleEscape (moveCursor (handleOutput (initialTerminal 2 5) (str "Hello")).1 0 2)
        (str "K")).content 0).length
        = (initialTerminal 2 5).config.cols) := by
  decide

/-- Claim C6 (amended): `CSI K` with mode 0 truncates the cursor row at the
cursor column; mode 1 replaces the first `cursorCol` cells by zero-valued
cells (rune 0, nil style), keeping the rest; mode 2 replaces the row by
zero-valued cells of its previous length; when the cursor column is not
inside the row the grid is unchanged; rows other than the cursor row are
never touched. -/
theorem el_semantics (st : TermState) :
    let row := gridRow st.content st.cursorRow
    let setRow := fun newRow => { st with content := gridSetRow st.content st.cursorRow newRow }
    (handleEscape st (str "K")
      = if row.length ≤ st.cursorCol then st else setRow (row.take st.cursorCol)) ∧
    (handleEscape st (str "1K")
      = if row.length ≤ st.cursorCol then st
        else setRow (List.replicate st.cursorCol ({} : Cell) ++ row.drop st.cursorCol)) ∧
    (handleEscape st (str "2K")
      = if row.length ≤ st.cursorCol then st
        else setRow (List.replicate row.length ({} : Cell))) ∧
    (∀ j : Int, j ≠ (st.cursorRow : Int) →
      gridRow (handleEscape st (str "K")).content j = gridRow st.content j) := by
  refine ⟨rfl, rfl, rfl, ?_⟩
  intro j hj
  have e0 : handleEscape st (str "K")
      = if (gridRow st.content st.cursorRow).length ≤ st.cursorCol then st
        else { st with
          content := gridSetRow st.content st.cursorRow
            ((gridRow st.content st.cursorRow).take st.cursorCol) } := rfl
  rw [e0]
  by_cases hc : (gridRow st.content st.cursorRow).length ≤ st.cursorCol
  · rw [if_pos hc]
  · rw [if_neg hc]
    exact gridRow_gridSetRow_ne _ _ _ _ hj

/-- Witness for C6 at the "Hello" state: row 1 (below the cursor row) is
unchanged by `CSI K`. -/
theorem el_semantics_witness :
    (1 : Int) ≠ (((moveCursor (handleOutput (initialTerminal 2 5) (str "Hello")).1 0 2).cursorRow : Nat) : Int) ∧
    gridRow (handleEscape (moveCursor (handleOutput (initialTerminal 2 5) (str "Hello")).1 0 2)
        (str "K")).content 1
      = gridRow (moveCursor (handleOutput (initialTerminal 2 5) (str "Hello")).1 0 2).content 1 :=
  ⟨by decide,
   (el_semantics (moveCursor (handleOutput (initialTerminal 2 5) (str "Hello")).1 0 2)).2.2.2
     1 (by decide)⟩

/-! ## Claim C3 (amended) — DECSTBM with ordered in-range parameters -/

theorem utf8Len_eq_length {l : List Nat} (h : ∀ c ∈ l, c < 128) : utf8Len l = l.length := by
  induction l with
  | nil => rfl
  | cons c t ih =>
    have hc : utf8Size c = 1 := by
      unfold utf8Size
      rw [if_pos (h c (List.mem_cons_self c t))]
    have ht := ih (fun x hx => h x (List.mem_cons_of_mem c hx))
    have hstep : utf8Len (c :: t) = utf8Size c + utf8Len t := by simp [utf8Len]
    rw [hstep, hc, ht, List.length_cons]
    omega

/-- Claim C3 (amended): `CSI top ; bottom r` stores `scrollTop = top-1` and
`scrollBottom = bottom-1` with no clamping or ordering check, so the
invariant `0 ≤ scrollTop ≤ scrollBottom ≤ Rows-1` holds after the sequence
exactly when the parameters satisfy `1 ≤ top ≤ bottom ≤ Rows`; values
outside that range are stored as they are (see the counterexample). -/
theorem decstbm_in_range (st : TermState) (t b : Nat)
    (h1 : 1 ≤ t) (h2 : t ≤ b) (h3 : b ≤ st.config.rows) :
    handleEscape st (goItoa t ++ 59 :: (goItoa b ++ [114]))
      = { st with scrollTop := (t : Int) - 1, scrollBottom := (b : Int) - 1 } ∧
    (0 : Int) ≤ (t : Int) - 1 ∧ (t : Int) - 1 ≤ (b : Int) - 1 ∧
    (b : Int) - 1 ≤ (st.config.rows : Int) - 1 := by
  have main : handleEscape st (goItoa t ++ 59 :: (goItoa b ++ [114]))
      = { st with scrollTop := (t : Int) - 1, scrollBottom := (b : Int) - 1 } := by
    have htrim : trimLeftZeros (goItoa t ++ 59 :: (goItoa b ++ [114]))
        = goItoa t ++ 59 :: (goItoa b ++ [114]) := by
      rcases hht : goItoa t with _ | ⟨c0, r0⟩
      · exact absurd hht (goItoa_ne_nil t)
      · have hc0 : 48 < c0 := goItoa_head_gt_48 (by omega) hht
        simp [trimLeftZeros, List.dropWhile_cons, show ¬ (c0 ≤ 48) by omega]
    have h128 : ∀ x ∈ goItoa t ++ 59 :: (goItoa b ++ [114]), x < 128 := by
      intro x hx
      rcases List.mem_append.mp hx with h | h
      · have := goItoa_mem_digit h; omega
      · rcases List.mem_cons.mp h with h | h
        · omega
        · rcases List.mem_append.mp h with h | h
          · have := goItoa_mem_digit h; omega
          · have hx114 : x = 114 := by simpa using h
            omega
    have hne : goItoa t ++ 59 :: (goItoa b ++ [114]) ≠ [] := by simp
    have hconcat : goItoa t ++ 59 :: (goItoa b ++ [114])
        = (goItoa t ++ 59 :: goItoa b) ++ [114] := by simp
    unfold handleEscape
    rw [htrim, if_neg hne, if_pos (utf8Len_eq_length h128), hconcat,
      List.getLast?_concat, List.dropLast_concat]
    show dispatchEscape st 114 (goItoa t ++ 59 :: goItoa b) = _
    unfold dispatchEscape
    norm_num
    unfold escapeSetScrollArea
    rw [goSplit_append (sep_not_mem_goItoa t), goSplit_sepFree (sep_not_mem_goItoa b)]
    simp [goItoa_ne_nil, goAtoi_goItoa]
  exact ⟨main, by omega, by omega, by omega⟩

/-- Witness for C3 (amended) at Rows = 3, parameters `1;2`. -/
theorem decstbm_in_range_witness :
    1 ≤ 1 ∧ 1 ≤ 2 ∧ 2 ≤ (initialTerminal 3 20).config.rows ∧
    (handleEscape (initialTerminal 3 20) (goItoa 1 ++ 59 :: (goItoa 2 ++ [114]))
      = { initialTerminal 3 20 with scrollTop := ((1 : Nat) : Int) - 1, scrollBottom := ((2 : Nat) : Int) - 1 } ∧
    (0 : Int) ≤ ((1 : Nat) : Int) - 1 ∧ ((1 : Nat) : Int) - 1 ≤ ((2 : Nat) : Int) - 1 ∧
    ((2 : Nat) : Int) - 1 ≤ (((initialTerminal 3 20).config.rows : Nat) : Int) - 1) :=
  ⟨by decide, by decide, by decide,
   decstbm_in_range (initialTerminal 3 20) 1 2 (by decide) (by decide) (by decide)⟩

/-! ## Claim C8 — RIS idempotence -/

/-- The blank cell used by `clearScreen` right after `resetTerminal` has
cleared the attributes. -/
def resetBlank : Cell :=
  { rune := 32, style := some (.termStyle none none false false false) }

/-- The `clearScreen` row loop replaces the first `r` rows and keeps the
rest. -/
theorem clear_foldl (line : TGRow) : ∀ (r : Nat) (g : List TGRow),
    (List.range r).foldl (fun acc i => gridSetRow acc (i : Int) line) g
      = List.replicate r line ++ g.drop r := by
  have hmap : ∀ m : Nat,
      ((List.range m : List Int)) = (List.range m).map (fun (a : Nat) => (a : Int)) := by
    intro m
    simp only [List.pure_def, List.bind_eq_flatMap]
    exact (List.map_eq_flatMap _ _).symm
  intro r
  induction r with
  | zero => intro g; simp [hmap]
  | succ n ih =>
    intro g
    simp only [hmap] at ih ⊢
    rw [List.range_succ, List.map_append, List.foldl_append, ih]
    simp only [List.map_cons, List.map_nil, List.foldl_cons, List.foldl_nil]
    unfold gridSetRow
    rw [if_neg (by omega : ¬ (n : Int) < 0)]
    simp only [Int.toNat_natCast, List.length_append, List.length_replicate]
    by_cases hg : g.length ≤ n
    · have hd1 : g.drop n = [] := List.drop_eq_nil_of_le hg
      have hd2 : g.drop (n + 1) = [] := List.drop_eq_nil_of_le (by omega)
      rw [hd1, hd2, List.append_nil, List.append_nil]
      have h1 : n + 1 - (n + List.length ([] : List TGRow)) = 1 := by simp
      rw [h1]
      rw [List.set_append_right _ _ (by simp)]
      simp [List.replicate_succ']
    · push_neg at hg
      obtain ⟨d, rest, hdr⟩ : ∃ d rest, g.drop n = d :: rest := by
        rcases hx : g.drop n with _ | ⟨d, rest⟩
        · exact absurd (List.drop_eq_nil_iff.mp hx) (by omega)
        · exact ⟨d, rest, rfl⟩
      have hlen : (g.drop n).length = g.length - n := List.length_drop n g
      have h0 : n + 1 - (n + (g.drop n).length) = 0 := by omega
      rw [h0]
      simp only [List.replicate_zero, List.append_nil]
      rw [List.set_append_right _ _ (by simp)]
      have hidx : n - (List.replicate n line).length = 0 := by simp
      rw [hidx, hdr]
      have htail : rest = g.drop (n + 1) := by
        have := List.tail_drop g n
        rw [hdr] at this
        simpa using this
      rw [List.set_cons_zero, htail, List.replicate_succ']
      simp

/-- Explicit form of `resetTerminal`. -/
theorem resetTerminal_eq (st : TermState) :
    resetTerminal st = { st with
      wrapAround := true, wrapPending := false, newLineMode := false,
      cursorHidden := false, applicationCursorKeys := false, mouseMode := none,
      currentBG := none, currentFG := none,
      bold := false, blinking := false, underlined := false,
      g0Charset := CharSet.ansii, g1Charset := CharSet.ansii, useG1CharSet := false,
      scrollTop := 0,
      scrollBottom := if 0 < st.config.rows then (st.config.rows : Int) - 1 else st.scrollBottom,
      savedRows := none, bufferMode := false,
      content := List.replicate st.config.rows (List.replicate st.config.cols resetBlank)
        ++ st.content.drop st.config.rows,
      cursorRow := if st.config.cols = 0 ∨ st.config.rows = 0 then st.cursorRow else 0,
      cursorCol := if st.config.cols = 0 ∨ st.config.rows = 0 then st.cursorCol else 0 } := by
  unfold resetTerminal clearScreen moveCursor blankCell newTermStyle
  by_cases h : st.config.cols = 0 ∨ st.config.rows = 0
  · simp only [h, if_true, if_pos h, clear_foldl]
    rfl
  · push_neg at h
    have hc : ¬ (st.config.cols = 0 ∨ st.config.rows = 0) := by
      push_neg
      exact h
    simp only [hc, if_false, if_neg hc, clear_foldl]
    have h1 : ¬ ((0 : Int) < 0) := by omega
    have h2 : ¬ ((st.config.cols : Int) ≤ 0) := by omega
    have h3 : ¬ ((st.config.rows : Int) ≤ 0) := by omega
    simp only [h1, h2, h3, if_false]
    rfl

/-- Claim C8: full reset is idempotent — applying `resetTerminal` (RIS,
`ESC c`) twice yields exactly the same terminal state as applying it once. -/
theorem resetTerminal_idempotent (st : TermState) :
    resetTerminal (resetTerminal st) = resetTerminal st := by
  rw [resetTerminal_eq st, resetTerminal_eq]
  have hdrop : ∀ (r : Nat) (line : TGRow) (l : List TGRow),
      (List.replicate r line ++ l).drop r = l := by
    intro r line l
    exact List.drop_left' (List.length_replicate r line)
  ext1 <;> simp [hdrop] <;> intros <;> split_ifs <;> simp_all

/-! ## Claim C2 — deferred wrap -/

/-- `scrollDown` never touches the pending-wrap flag. -/
theorem scrollDown_wrapPending (s : TermState) :
    (scrollDown s).wrapPending = s.wrapPending := by
  unfold scrollDown
  dsimp only
  split
  · rfl
  · split <;> rfl

/-- `moveCursor` clears the pending wrap whenever the terminal has a size. -/
theorem moveCursor_wrapPending (s : TermState) (row col : Int) :
    (moveCursor s row col).wrapPending
      = if s.config.cols = 0 ∨ s.config.rows = 0 then s.wrapPending else false := by
  unfold moveCursor
  split_ifs <;> rfl

/-- A line feed started with no pending wrap leaves no pending wrap. -/
theorem lineFeed_wrapPending_false (s : TermState) (h : s.wrapPending = false) :
    (handleOutputLineFeed s).wrapPending = false := by
  unfold handleOutputLineFeed
  dsimp only
  split_ifs <;> simp [moveCursor_wrapPending, scrollDown_wrapPending, h]

/-- A character arriving while a wrap is pending (with wrap-around on) is
processed exactly as after a line feed from column 0. -/
theorem char_pending_eq (st : TermState) (r : Nat) (hwa : st.wrapAround = true)
    (hwp : st.wrapPending = true) :
    handleOutputChar st r
      = handleOutputChar
          (handleOutputLineFeed { st with wrapPending := false, cursorCol := 0 }) r := by
  have h2 : (handleOutputLineFeed
      { st with wrapPending := false, cursorCol := 0 }).wrapPending = false :=
    lineFeed_wrapPending_false _ rfl
  rw [handleOutputChar, handleOutputChar]
  dsimp only
  rw [if_pos hwp, if_pos hwa]
  simp only [h2, Bool.false_eq_true, if_false]

/-- A character arriving while a wrap is pending with wrap-around off is
processed as from column `Columns - 1`. -/
theorem char_pending_nowrap_eq (st : TermState) (r : Nat)
    (hwa : st.wrapAround = false) (hwp : st.wrapPending = true)
    (hc : 0 < st.config.cols) :
    handleOutputChar st r
      = handleOutputChar
          { st with wrapPending := false, cursorCol := st.config.cols - 1 } r := by
  rw [handleOutputChar, handleOutputChar]
  dsimp only
  rw [if_pos hwp]
  simp only [hwa, Bool.false_eq_true, if_false, hc, if_true, ite_true, ite_false]

/-- Claim C2: deferred wrap.  (i) With wrap-around on, printing at the last
column places the glyph there with the current style, keeps the row, and
defers the wrap (`wrapPending` set with the legacy `cursorCol = Columns`
marker) instead of advancing; (ii) the next character printed while a wrap
is pending is processed exactly as after a line feed from column 0;
(iii) printing with no wrap pending never changes the row; (iv) any explicit
cursor movement clears `wrapPending`; (v) on a 2×3 terminal, writing three
characters to the fresh top row followed by one more wraps exactly once,
leaving the extra character at `(1, 0)`; (vi) a CUP between the third and
the fourth character suppresses the wrap. -/
theorem deferred_wrap_semantics :
    (∀ (st : TermState) (r : Nat),
      st.wrapAround = true → st.wrapPending = false → 1 ≤ st.config.cols →
      st.cursorCol = st.config.cols - 1 →
      handleOutputChar st r =
        (let cellStyle := newTermStyle st
         let padded := st.content
           ++ List.replicate (st.cursorRow + 1 - st.content.length) []
         let row0 := padded.getD st.cursorRow []
         let row1 := (row0 ++ List.replicate (st.cursorCol + 1 - row0.length)
             { rune := 32, style := some cellStyle }).set st.cursorCol
             { rune := r, style := some cellStyle }
         { st with content := padded.set st.cursorRow row1,
                   wrapPending := true, cursorCol := st.config.cols }))
  ∧ (∀ (st : TermState) (r : Nat), st.wrapAround = true → st.wrapPending = true →
      handleOutputChar st r
        = handleOutputChar
            (handleOutputLineFeed { st with wrapPending := false, cursorCol := 0 }) r)
  ∧ (∀ (st : TermState) (r : Nat), st.wrapPending = false →
      (handleOutputChar st r).cursorRow = st.cursorRow)
  ∧ (∀ (st : TermState) (row col : Int),
      (moveCursor st row col).wrapPending
        = if st.config.cols = 0 ∨ st.config.rows = 0 then st.wrapPending else false)
  ∧ ((handleOutput (initialTerminal 2 3) [97, 98, 99, 100]).1.cursorRow = 1
      ∧ ((handleOutput (initialTerminal 2 3) [97, 98, 99, 100]).1.content.getD 1 []).map
          (fun cl => cl.rune) = [100]
      ∧ ((handleOutput (initialTerminal 2 3) [97, 98, 99, 100]).1.content.getD 0 []).map
          (fun cl => cl.rune) = [97, 98, 99]
      ∧ (handleOutput (initialTerminal 2 3) [97, 98, 99, 100]).1.wrapPending = false)
  ∧ ((handleOutput (initialTerminal 2 3) [97, 98, 99, 27, 91, 72, 100]).1.cursorRow = 0
      ∧ ((handleOutput (initialTerminal 2 3) [97, 98, 99, 27, 91, 72, 100]).1.content.getD 0
          []).map (fun cl => cl.rune) = [100, 98, 99]) := by
  refine ⟨?_, ?_, ?_, ?_, ?_, ?_⟩
  · intro st r hwa hwp h1 hcc
    have h0 : 0 < st.config.cols := h1
    have hcast : (st.cursorCol : Int) = (st.config.cols : Int) - 1 := by
      rw [hcc]
      omega
    rw [handleOutputChar]
    simp only [hwp, Bool.false_eq_true, if_false, hcast, hwa, h0, eq_self_iff_true,
      ite_true, if_true]
  · exact fun st r hwa hwp => char_pending_eq st r hwa hwp
  · intro st r hwp
    rw [handleOutputChar]
    simp only [hwp, Bool.false_eq_true, if_false]
    split_ifs <;> rfl
  · intro st row col
    exact moveCursor_wrapPending st row col
  · exact ⟨by decide, by decide, by decide, by decide⟩
  · exact ⟨by decide, by decide⟩

/-- Concrete instantiations of each quantified part of the deferred-wrap
theorem. -/
theorem deferred_wrap_semantics_witness :
    (let stA : TermState := { initialTerminal 2 3 with cursorCol := 2 }
     (handleOutputChar stA 97).wrapPending = true)
      ∧ (let stB : TermState :=
           { initialTerminal 2 3 with wrapPending := true, cursorCol := 3 }
         handleOutputChar stB 98
          = handleOutputChar
              (handleOutputLineFeed { stB with wrapPending := false, cursorCol := 0 }) 98)
      ∧ (handleOutputChar (initialTerminal 2 3) 99).cursorRow
          = (initialTerminal 2 3).cursorRow
      ∧ (moveCursor (initialTerminal 2 3) 1 1).wrapPending
          = if (initialTerminal 2 3).config.cols = 0
              ∨ (initialTerminal 2 3).config.rows = 0
            then (initialTerminal 2 3).wrapPending else false := by
  refine ⟨?_, ?_, ?_, ?_⟩
  · show (handleOutputChar { initialTerminal 2 3 with cursorCol := 2 } 97).wrapPending
      = true
    rw [deferred_wrap_semantics.1 { initialTerminal 2 3 with cursorCol := 2 } 97
      rfl rfl (by decide) rfl]
  · show handleOutputChar
        { initialTerminal 2 3 with wrapPending := true, cursorCol := 3 } 98
      = handleOutputChar (handleOutputLineFeed
          { { initialTerminal 2 3 with wrapPending := true, cursorCol := 3 } with
            wrapPending := false, cursorCol := 0 }) 98
    exact deferred_wrap_semantics.2.1 _ 98 rfl rfl
  · exact deferred_wrap_semantics.2.2.1 _ 99 rfl
  · exact deferred_wrap_semantics.2.2.2.1 _ 1 1

/-! ## Claim C1 — cursor bounds invariant

The amended claim: along any processing path that never executes the `ESC 8`
(DECRC) restore branch — tracked by the ghost flag `usedDecrc` — the cursor
stays inside the grid and the `cursorCol = Columns` marker appears only with
a pending wrap.  The development proves one preservation lemma per handler
and chains them through `processRune`, `runChunk` and `handleOutputFuel`. -/

/-- The cursor well-formedness invariant: the row is inside the grid, the
column is at most `Columns`, and the column equals `Columns` only while a
wrap is pending. -/
def cursorInv (st : TermState) : Prop :=
  st.cursorRow < st.config.rows ∧ st.cursorCol ≤ st.config.cols ∧
    (st.cursorCol = st.config.cols → st.wrapPending = true)

/-- The fields relevant to `cursorInv` (plus the ghost flag) agree. -/
def cursorFieldsEq (a b : TermState) : Prop :=
  a.cursorRow = b.cursorRow ∧ a.cursorCol = b.cursorCol ∧
    a.wrapPending = b.wrapPending ∧ a.config.rows = b.config.rows ∧
    a.config.cols = b.config.cols ∧ a.usedDecrc = b.usedDecrc

theorem cfe_refl (a : TermState) : cursorFieldsEq a a :=
  ⟨rfl, rfl, rfl, rfl, rfl, rfl⟩

theorem cfe_trans {a b c : TermState} (h1 : cursorFieldsEq a b)
    (h2 : cursorFieldsEq b c) : cursorFieldsEq a c :=
  ⟨h1.1.trans h2.1, h1.2.1.trans h2.2.1, h1.2.2.1.trans h2.2.2.1,
   h1.2.2.2.1.trans h2.2.2.2.1, h1.2.2.2.2.1.trans h2.2.2.2.2.1,
   h1.2.2.2.2.2.trans h2.2.2.2.2.2⟩

/-- A step that preserves the dimensions and the ghost flag and preserves
the cursor invariant. -/
def StepOK (f : TermState → TermState) : Prop :=
  ∀ s, (f s).config.rows = s.config.rows ∧ (f s).config.cols = s.config.cols ∧
    (f s).usedDecrc = s.usedDecrc ∧
    (1 ≤ s.config.rows → 1 ≤ s.config.cols → cursorInv s → cursorInv (f s))

/-- A step that preserves the dimensions, never clears the ghost flag, and
preserves the cursor invariant whenever the ghost flag is still clear after
the step. -/
def SafeStep (f : TermState → TermState) : Prop :=
  ∀ s, (f s).config.rows = s.config.rows ∧ (f s).config.cols = s.config.cols ∧
    ((f s).usedDecrc = false → s.usedDecrc = false) ∧
    (1 ≤ s.config.rows → 1 ≤ s.config.cols → cursorInv s →
      (f s).usedDecrc = false → cursorInv (f s))

theorem StepOK.safe {f : TermState → TermState} (h : StepOK f) : SafeStep f := by
  intro s
  obtain ⟨h1, h2, h3, h4⟩ := h s
  exact ⟨h1, h2, fun hd => h3 ▸ hd, fun a b c _ => h4 a b c⟩

theorem stepOK_of_fields {f : TermState → TermState}
    (h : ∀ s, cursorFieldsEq (f s) s) : StepOK f := by
  intro s
  obtain ⟨h1, h2, h3, h4, h5, h6⟩ := h s
  refine ⟨h4, h5, h6, fun _ _ hi => ?_⟩
  unfold cursorInv at hi ⊢
  rw [h1, h2, h3, h4, h5]
  exact hi

theorem stepOK_comp {f g : TermState → TermState} (hf : StepOK f)
    (hg : StepOK g) : StepOK (fun s => g (f s)) := by
  intro s
  obtain ⟨f1, f2, f3, f4⟩ := hf s
  obtain ⟨g1, g2, g3, g4⟩ := hg (f s)
  exact ⟨g1.trans f1, g2.trans f2, g3.trans f3, fun a b c =>
    g4 (by rw [f1]; exact a) (by rw [f2]; exact b) (f4 a b c)⟩

theorem stepOK_congr {f g : TermState → TermState} (he : ∀ s, f s = g s)
    (hg : StepOK g) : StepOK f := by
  intro s
  rw [he s]
  exact hg s

theorem safeStep_comp {f g : TermState → TermState} (hf : SafeStep f)
    (hg : SafeStep g) : SafeStep (fun s => g (f s)) := by
  intro s
  obtain ⟨f1, f2, f3, f4⟩ := hf s
  obtain ⟨g1, g2, g3, g4⟩ := hg (f s)
  exact ⟨g1.trans f1, g2.trans f2, fun hd => f3 (g3 hd), fun a b c hd =>
    g4 (by rw [f1]; exact a) (by rw [f2]; exact b) (f4 a b c (g3 hd)) hd⟩

theorem safeStep_congr {f g : TermState → TermState} (he : ∀ s, f s = g s)
    (hg : SafeStep g) : SafeStep f := by
  intro s
  rw [he s]
  exact hg s

theorem stepOK_id : StepOK (fun s => s) :=
  fun _ => ⟨rfl, rfl, rfl, fun _ _ c => c⟩

theorem stepOK_foldl {α : Type} (f : TermState → α → TermState)
    (hf : ∀ a, StepOK (fun s => f s a)) (l : List α) :
    StepOK (fun s => l.foldl f s) := by
  induction l with
  | nil => exact stepOK_id
  | cons a t ih =>
    exact stepOK_congr (fun s => by rw [List.foldl_cons]) (stepOK_comp (hf a) ih)

theorem moveCursor_config (s : TermState) (r c : Int) :
    (moveCursor s r c).config = s.config := by
  unfold moveCursor
  split_ifs <;> rfl

theorem moveCursor_usedDecrc (s : TermState) (r c : Int) :
    (moveCursor s r c).usedDecrc = s.usedDecrc := by
  unfold moveCursor
  split_ifs <;> rfl

theorem moveCursor_inv (s : TermState) (r c : Int)
    (h1 : 1 ≤ s.config.rows) (h2 : 1 ≤ s.config.cols) :
    cursorInv (moveCursor s r c) := by
  unfold moveCursor
  rw [if_neg (by omega : ¬ (s.config.cols = 0 ∨ s.config.rows = 0))]
  refine ⟨?_, ?_, fun hh => absurd hh ?_⟩ <;> dsimp only <;> split_ifs <;> omega

/-- Steps that either do nothing or end in a `moveCursor` on a state with
the same dimensions and ghost flag are `StepOK`. -/
theorem stepOK_moveCursor {f : TermState → TermState}
    (hf : ∀ s, f s = s ∨ ∃ s' r c, f s = moveCursor s' r c ∧
      s'.config = s.config ∧ s'.usedDecrc = s.usedDecrc) : StepOK f := by
  intro s
  rcases hf s with he | ⟨s', r, c, he, hcfg, hud⟩
  · rw [he]
    exact ⟨rfl, rfl, rfl, fun _ _ z => z⟩
  · rw [he]
    refine ⟨by rw [moveCursor_config, hcfg], by rw [moveCursor_config, hcfg],
      by rw [moveCursor_usedDecrc, hud], fun a b _ => ?_⟩
    exact moveCursor_inv s' r c (by rw [hcfg]; exact a) (by rw [hcfg]; exact b)

theorem scrollDown_fields (s : TermState) : cursorFieldsEq (scrollDown s) s := by
  unfold scrollDown
  dsimp only
  split
  · exact cfe_refl _
  · split <;> exact cfe_refl _

theorem scrollUp_fields (s : TermState) : cursorFieldsEq (scrollUp s) s := by
  unfold scrollUp
  dsimp only
  split
  · exact cfe_refl _
  · split <;> exact cfe_refl _

theorem scrollDown_config (s : TermState) : (scrollDown s).config = s.config := by
  unfold scrollDown
  dsimp only
  split
  · rfl
  · split <;> rfl

theorem scrollDown_usedDecrc (s : TermState) :
    (scrollDown s).usedDecrc = s.usedDecrc := by
  unfold scrollDown
  dsimp only
  split
  · rfl
  · split <;> rfl

theorem handleOutputLineFeed_ok : StepOK handleOutputLineFeed := by
  intro s
  unfold handleOutputLineFeed
  dsimp only
  obtain ⟨d1, d2, d3, d4, d5, d6⟩ := scrollDown_fields s
  split_ifs with hb hn hn2
  · exact ⟨by rw [moveCursor_config, scrollDown_config],
      by rw [moveCursor_config, scrollDown_config],
      by rw [moveCursor_usedDecrc, scrollDown_usedDecrc], fun a b _ =>
      moveCursor_inv _ _ _ (by rw [scrollDown_config]; exact a)
        (by rw [scrollDown_config]; exact b)⟩
  · exact ⟨d4, d5, d6, fun _ _ hi => by
      unfold cursorInv at hi ⊢
      rw [d1, d2, d3, d4, d5]
      exact hi⟩
  · exact ⟨by rw [moveCursor_config], by rw [moveCursor_config],
      by rw [moveCursor_usedDecrc], fun a b _ => moveCursor_inv _ _ _ a b⟩
  · exact ⟨by rw [moveCursor_config], by rw [moveCursor_config],
      by rw [moveCursor_usedDecrc], fun a b _ => moveCursor_inv _ _ _ a b⟩

theorem handleOutputLineFeed_config (s : TermState) :
    (handleOutputLineFeed s).config = s.config := by
  unfold handleOutputLineFeed
  dsimp only
  split_ifs <;> simp [moveCursor_config, scrollDown_config]

theorem handleOutputChar_config (s : TermState) (r : Nat) :
    (handleOutputChar s r).config = s.config := by
  rw [handleOutputChar]
  dsimp only
  split_ifs <;> simp [handleOutputLineFeed_config]

theorem handleOutputLineFeed_usedDecrc (s : TermState) :
    (handleOutputLineFeed s).usedDecrc = s.usedDecrc := by
  unfold handleOutputLineFeed
  dsimp only
  split_ifs <;> simp [moveCursor_usedDecrc, scrollDown_usedDecrc]

theorem handleOutputChar_usedDecrc (s : TermState) (r : Nat) :
    (handleOutputChar s r).usedDecrc = s.usedDecrc := by
  rw [handleOutputChar]
  dsimp only
  split_ifs <;> simp [handleOutputLineFeed_usedDecrc]

/-- A character printed with no pending wrap keeps the cursor invariant. -/
theorem handleOutputChar_nopending_inv (t : TermState) (r : Nat)
    (h1 : 1 ≤ t.config.rows) (h2 : 1 ≤ t.config.cols)
    (hp : t.wrapPending = false) (hinv : cursorInv t) :
    cursorInv (handleOutputChar t r) := by
  have hne : t.cursorCol ≠ t.config.cols := by
    intro e
    have := hinv.2.2 e
    rw [hp] at this
    exact Bool.false_ne_true this
  have hlt : t.cursorCol < t.config.cols := lt_of_le_of_ne hinv.2.1 hne
  rw [handleOutputChar]
  dsimp only
  simp only [hp, Bool.false_eq_true, if_false]
  split_ifs with hc hw h0
  · exact ⟨hinv.1, le_rfl, fun _ => rfl⟩
  · exact absurd h2 (by omega)
  · exact ⟨hinv.1, hinv.2.1, fun e => absurd e hne⟩
  · refine ⟨hinv.1, ?_, fun e => ?_⟩
    · show t.cursorCol + 1 ≤ t.config.cols
      omega
    · exfalso
      have e' : t.cursorCol + 1 = t.config.cols := e
      exact hc (by omega)

theorem handleOutputChar_ok (r : Nat) : StepOK (fun s => handleOutputChar s r) := by
  intro s
  refine ⟨by rw [handleOutputChar_config], by rw [handleOutputChar_config],
    handleOutputChar_usedDecrc s r, fun h1 h2 hinv => ?_⟩
  show cursorInv (handleOutputChar s r)
  by_cases hp : s.wrapPending = true
  · by_cases hwa : s.wrapAround = true
    · rw [char_pending_eq s r hwa hp]
      have hcfg : (handleOutputLineFeed
          { s with wrapPending := false, cursorCol := 0 }).config = s.config :=
        handleOutputLineFeed_config _
      have htp : (handleOutputLineFeed
          { s with wrapPending := false, cursorCol := 0 }).wrapPending = false :=
        lineFeed_wrapPending_false _ rfl
      have hti : cursorInv (handleOutputLineFeed
          { s with wrapPending := false, cursorCol := 0 }) :=
        (handleOutputLineFeed_ok _).2.2.2 h1 h2
          ⟨hinv.1, Nat.zero_le _,
           fun e => absurd (show 0 = s.config.cols from e) (by omega)⟩
      exact handleOutputChar_nopending_inv _ r (by rw [hcfg]; exact h1)
        (by rw [hcfg]; exact h2) htp hti
    · have hwa' : s.wrapAround = false := by
        revert hwa
        cases s.wrapAround <;> simp
      rw [char_pending_nowrap_eq s r hwa' hp h2]
      exact handleOutputChar_nopending_inv
        { s with wrapPending := false, cursorCol := s.config.cols - 1 } r h1 h2 rfl
        ⟨hinv.1, show s.config.cols - 1 ≤ s.config.cols by omega,
         fun e => absurd e (show ¬ s.config.cols - 1 = s.config.cols by omega)⟩
  · have hp' : s.wrapPending = false := by
      revert hp
      cases s.wrapPending <;> simp
    exact handleOutputChar_nopending_inv s r h1 h2 hp' hinv

theorem handleOutputTabGo_ok (fuel endCol : Nat) :
    StepOK (fun s => handleOutputTabGo fuel s endCol) := by
  induction fuel with
  | zero => exact stepOK_id
  | succ n ih =>
    have he : ∀ s, handleOutputTabGo (n + 1) s endCol
        = if s.cursorCol < endCol then
            handleOutputTabGo n (handleOutputChar s 32) endCol
          else s := fun _ => rfl
    refine stepOK_congr he ?_
    intro s
    dsimp only
    split_ifs
    · exact (stepOK_comp (handleOutputChar_ok 32) ih) s
    · exact stepOK_id s

theorem handleOutputTab_ok : StepOK handleOutputTab := by
  intro s
  unfold handleOutputTab
  exact handleOutputTabGo_ok _ _ s

theorem handleOutputBackspace_ok : StepOK handleOutputBackspace := by
  apply stepOK_moveCursor
  intro s
  unfold handleOutputBackspace
  split_ifs
  · exact Or.inl rfl
  · exact Or.inr ⟨s, _, _, rfl, rfl, rfl⟩

theorem handleOutputCarriageReturn_ok : StepOK handleOutputCarriageReturn := by
  apply stepOK_moveCursor
  intro s
  exact Or.inr ⟨s, _, _, rfl, rfl, rfl⟩

theorem ringBell_ok : StepOK ringBell :=
  stepOK_of_fields (fun _ => cfe_refl _)

theorem handleShiftOut_ok : StepOK handleShiftOut :=
  stepOK_of_fields (fun _ => cfe_refl _)

theorem handleShiftIn_ok : StepOK handleShiftIn :=
  stepOK_of_fields (fun _ => cfe_refl _)

set_option maxHeartbeats 1000000 in
theorem handleColorMode_fields (m : List Nat) (s : TermState) :
    cursorFieldsEq (handleColorMode s m) s := by
  unfold handleColorMode
  dsimp only
  refine ⟨?_, ?_, ?_, ?_, ?_, ?_⟩ <;>
    simp only [apply_ite TermState.cursorRow, apply_ite TermState.cursorCol,
      apply_ite TermState.wrapPending, apply_ite TermState.config,
      apply_ite TermState.usedDecrc, apply_ite Config.rows,
      apply_ite Config.cols, ite_self]

theorem handleColorModeMap_fields (mode ids : List Nat) (s : TermState) :
    cursorFieldsEq (handleColorModeMap s mode ids) s := by
  unfold handleColorModeMap
  dsimp only
  split
  · exact cfe_refl _
  · split_ifs <;> exact cfe_refl _

theorem handleColorModeRGB_fields (mode rs gs bs : List Nat) (s : TermState) :
    cursorFieldsEq (handleColorModeRGB s mode rs gs bs) s := by
  unfold handleColorModeRGB
  dsimp only
  split_ifs <;> exact cfe_refl _

theorem handleColorModesGo_fields : ∀ (fuel : Nat) (l : List (List Nat))
    (s : TermState), cursorFieldsEq (handleColorModesGo fuel s l) s := by
  intro fuel
  induction fuel with
  | zero => intro l s; exact cfe_refl _
  | succ n ih =>
    intro l s
    cases l with
    | nil => exact cfe_refl _
    | cons mode rest =>
      show cursorFieldsEq
        (if mode = [] then handleColorModesGo n s rest
         else if (mode = str "38" ∨ mode = str "48") ∧ rest ≠ [] then
           (match rest with
            | next :: m2 :: rest3 =>
              if next = str "5" then
                handleColorModesGo n (handleColorModeMap s mode m2) rest3
              else if next = str "2" then
                match m2 :: rest3 with
                | r :: g :: b :: rest5 =>
                  handleColorModesGo n (handleColorModeRGB s mode r g b) rest5
                | other2 => handleColorModesGo n s (next :: other2)
              else handleColorModesGo n s (next :: m2 :: rest3)
            | other => handleColorModesGo n s other)
         else handleColorModesGo n (handleColorMode s mode) rest) s
      split_ifs with hm hz
      · exact ih rest s
      · cases rest with
        | nil => exact absurd rfl hz.2
        | cons next rtail =>
          cases rtail with
          | nil =>
            dsimp only
            exact ih [next] s
          | cons m2 rest3 =>
            dsimp only
            split_ifs with h5 h2
            · exact cfe_trans (ih rest3 _) (handleColorModeMap_fields mode m2 s)
            · cases rest3 with
              | nil =>
                dsimp only
                exact ih [next, m2] s
              | cons c t2 =>
                cases t2 with
                | nil =>
                  dsimp only
                  exact ih [next, m2, c] s
                | cons d t3 =>
                  dsimp only
                  exact cfe_trans (ih t3 _)
                    (handleColorModeRGB_fields mode m2 c d s)
            · exact ih (next :: m2 :: rest3) s
      · exact cfe_trans (ih rest _) (handleColorMode_fields mode s)

theorem handleColorModes_fields (l : List (List Nat)) (s : TermState) :
    cursorFieldsEq (handleColorModes s l) s :=
  handleColorModesGo_fields l.length l s

theorem handleColorEscape_fields (msg : List Nat) (s : TermState) :
    cursorFieldsEq (handleColorEscape s msg) s := by
  unfold handleColorEscape
  split_ifs
  · exact cfe_refl _
  · exact cfe_refl _
  · exact handleColorModes_fields _ _

theorem escapeColorMode_ok (msg : List Nat) :
    StepOK (fun s => escapeColorMode s msg) :=
  stepOK_of_fields (fun s => handleColorEscape_fields msg s)

theorem escapeDeleteChars_ok (msg : List Nat) :
    StepOK (fun s => escapeDeleteChars s msg) := by
  apply stepOK_of_fields
  intro s
  unfold escapeDeleteChars
  dsimp only
  split_ifs <;> exact cfe_refl _

theorem escapeEraseInLine_ok (msg : List Nat) :
    StepOK (fun s => escapeEraseInLine s msg) := by
  apply stepOK_of_fields
  intro s
  unfold escapeEraseInLine
  dsimp only
  split_ifs <;> exact cfe_refl _

theorem escapeInsertChars_ok (msg : List Nat) :
    StepOK (fun s => escapeInsertChars s msg) := by
  apply stepOK_of_fields
  intro s
  unfold escapeInsertChars
  dsimp only
  split_ifs <;> exact cfe_refl _

theorem escapeInsertLines_ok (msg : List Nat) :
    StepOK (fun s => escapeInsertLines s msg) := by
  apply stepOK_of_fields
  intro s
  unfold escapeInsertLines
  dsimp only
  exact cfe_refl _

theorem clearScreenFromCursor_fields (s : TermState) :
    cursorFieldsEq (clearScreenFromCursor s) s := by
  unfold clearScreenFromCursor
  dsimp only
  exact cfe_refl _

theorem clearScreenToCursor_fields (s : TermState) :
    cursorFieldsEq (clearScreenToCursor s) s := by
  unfold clearScreenToCursor
  dsimp only
  split_ifs <;> exact cfe_refl _

theorem escapeSaveCursor_ok (msg : List Nat) :
    StepOK (fun s => escapeSaveCursor s msg) :=
  stepOK_of_fields (fun _ => cfe_refl _)

theorem escapeSetScrollArea_ok (msg : List Nat) :
    StepOK (fun s => escapeSetScrollArea s msg) := by
  apply stepOK_of_fields
  intro s
  unfold escapeSetScrollArea
  dsimp only
  split_ifs <;> exact cfe_refl _

theorem escapeScrollDown_ok (msg : List Nat) :
    StepOK (fun s => escapeScrollDown s msg) := by
  apply stepOK_of_fields
  intro s
  unfold escapeScrollDown
  dsimp only
  exact cfe_refl _

theorem escapeDeviceStatusReport_ok (msg : List Nat) :
    StepOK (fun s => escapeDeviceStatusReport s msg) := by
  apply stepOK_of_fields
  intro s
  unfold escapeDeviceStatusReport
  split_ifs <;> exact cfe_refl _

theorem escapePrinterMode_ok (msg : List Nat) :
    StepOK (fun s => escapePrinterMode s msg) := by
  apply stepOK_of_fields
  intro s
  unfold escapePrinterMode
  dsimp only
  split_ifs <;> exact cfe_refl _

theorem escapeDeviceAttribute_ok (msg : List Nat) :
    StepOK (fun s => escapeDeviceAttribute s msg) := by
  apply stepOK_of_fields
  intro s
  unfold escapeDeviceAttribute
  split_ifs <;> exact cfe_refl _

theorem handleVT100_ok (code : List Nat) :
    StepOK (fun s => handleVT100 s code) := by
  apply stepOK_of_fields
  intro s
  unfold handleVT100
  split_ifs <;> exact cfe_refl _

theorem handleOSC_fields (code : List Nat) (s : TermState) :
    cursorFieldsEq (handleOSC s code) s := by
  unfold handleOSC setTitle
  dsimp only
  split_ifs
  · exact cfe_refl _
  · split
    · exact cfe_refl _
    · split
      · exact cfe_refl _
      · split_ifs <;> exact cfe_refl _

theorem handleAPC_fields (code : List Nat) (s : TermState) :
    cursorFieldsEq (handleAPC s code) s := by
  unfold handleAPC
  split <;> exact cfe_refl _

theorem escapeMoveCursorUp_ok (msg : List Nat) :
    StepOK (fun s => escapeMoveCursorUp s msg) := by
  apply stepOK_moveCursor
  intro s
  exact Or.inr ⟨s, _, _, rfl, rfl, rfl⟩

theorem escapeMoveCursorDown_ok (msg : List Nat) :
    StepOK (fun s => escapeMoveCursorDown s msg) := by
  apply stepOK_moveCursor
  intro s
  exact Or.inr ⟨s, _, _, rfl, rfl, rfl⟩

theorem escapeMoveCursorRight_ok (msg : List Nat) :
    StepOK (fun s => escapeMoveCursorRight s msg) := by
  apply stepOK_moveCursor
  intro s
  exact Or.inr ⟨s, _, _, rfl, rfl, rfl⟩

theorem escapeMoveCursorLeft_ok (msg : List Nat) :
    StepOK (fun s => escapeMoveCursorLeft s msg) := by
  apply stepOK_moveCursor
  intro s
  exact Or.inr ⟨s, _, _, rfl, rfl, rfl⟩

theorem escapeMoveCursorRow_ok (msg : List Nat) :
    StepOK (fun s => escapeMoveCursorRow s msg) := by
  apply stepOK_moveCursor
  intro s
  unfold escapeMoveCursorRow
  dsimp only
  split_ifs <;> exact Or.inr ⟨s, _, _, rfl, rfl, rfl⟩

theorem escapeMoveCursorCol_ok (msg : List Nat) :
    StepOK (fun s => escapeMoveCursorCol s msg) := by
  apply stepOK_moveCursor
  intro s
  exact Or.inr ⟨s, _, _, rfl, rfl, rfl⟩

theorem escapeMoveCursor_ok (msg : List Nat) :
    StepOK (fun s => escapeMoveCursor s msg) := by
  apply stepOK_moveCursor
  intro s
  unfold escapeMoveCursor
  dsimp only
  split_ifs <;> exact Or.inr ⟨s, _, _, rfl, rfl, rfl⟩

theorem escapeRestoreCursor_ok (msg : List Nat) :
    StepOK (fun s => escapeRestoreCursor s msg) := by
  apply stepOK_moveCursor
  intro s
  unfold escapeRestoreCursor
  split_ifs
  · exact Or.inl rfl
  · exact Or.inr ⟨s, _, _, rfl, rfl, rfl⟩

theorem clearScreen_ok : StepOK clearScreen := by
  apply stepOK_moveCursor
  intro s
  exact Or.inr ⟨_, 0, 0, rfl, rfl, rfl⟩

theorem escapeEraseInScreen_ok (msg : List Nat) :
    StepOK (fun s => escapeEraseInScreen s msg) := by
  intro s
  unfold escapeEraseInScreen
  dsimp only
  split_ifs with h0 h1 h2 h3 h4
  · exact (stepOK_of_fields (clearScreenFromCursor_fields)) s
  · exact (stepOK_of_fields (clearScreenToCursor_fields)) s
  · exact clearScreen_ok s
  · refine ⟨by rw [moveCursor_config], by rw [moveCursor_config],
      by rw [moveCursor_usedDecrc], fun a b _ => moveCursor_inv _ _ _ a b⟩
  · refine ⟨by rw [moveCursor_config], by rw [moveCursor_config],
      by rw [moveCursor_usedDecrc], fun a b _ => moveCursor_inv _ _ _ a b⟩
  · exact stepOK_id s

theorem altScreen47_ok (enable : Bool) :
    StepOK (fun s => altScreen47 s enable) := by
  intro s
  unfold altScreen47
  dsimp only
  split_ifs with he hs
  · refine ⟨by rw [moveCursor_config], by rw [moveCursor_config],
      by rw [moveCursor_usedDecrc], fun a b _ => moveCursor_inv _ _ _ a b⟩
  · refine ⟨by rw [moveCursor_config], by rw [moveCursor_config],
      by rw [moveCursor_usedDecrc], fun a b _ => moveCursor_inv _ _ _ a b⟩
  · split
    · refine ⟨by rw [moveCursor_config], by rw [moveCursor_config],
        by rw [moveCursor_usedDecrc], fun a b _ => moveCursor_inv _ _ _ a b⟩
    · exact stepOK_id s

theorem privateModeOne_ok (mode : List Nat) (enable : Bool) :
    StepOK (fun s => privateModeOne s mode enable) := by
  intro s
  unfold privateModeOne
  dsimp only
  by_cases q1 : mode = str "1"
  · rw [if_pos q1]
    exact ⟨rfl, rfl, rfl, fun _ _ c => c⟩
  rw [if_neg q1]
  by_cases q2 : mode = str "7"
  · rw [if_pos q2]
    exact ⟨rfl, rfl, rfl, fun _ _ c => c⟩
  rw [if_neg q2]
  by_cases q3 : mode = str "6"
  · rw [if_pos q3]
    exact ⟨rfl, rfl, rfl, fun _ _ c => c⟩
  rw [if_neg q3]
  by_cases q4 : mode = str "20"
  · rw [if_pos q4]
    exact ⟨rfl, rfl, rfl, fun _ _ c => c⟩
  rw [if_neg q4]
  by_cases q5 : mode = str "25"
  · rw [if_pos q5]
    exact ⟨rfl, rfl, rfl, fun _ _ c => c⟩
  rw [if_neg q5]
  by_cases q6 : mode = str "1048"
  · rw [if_pos q6]
    split_ifs
    · exact ⟨rfl, rfl, rfl, fun _ _ c => c⟩
    · refine ⟨by rw [moveCursor_config], by rw [moveCursor_config],
        by rw [moveCursor_usedDecrc], fun a b _ => moveCursor_inv _ _ _ a b⟩
  rw [if_neg q6]
  by_cases q7 : mode = str "9"
  · rw [if_pos q7]
    exact ⟨rfl, rfl, rfl, fun _ _ c => c⟩
  rw [if_neg q7]
  by_cases q8 : mode = str "1000"
  · rw [if_pos q8]
    exact ⟨rfl, rfl, rfl, fun _ _ c => c⟩
  rw [if_neg q8]
  by_cases q9 : mode = str "1006"
  · rw [if_pos q9]
    exact ⟨rfl, rfl, rfl, fun _ _ c => c⟩
  rw [if_neg q9]
  by_cases q10 : mode = str "1049"
  · rw [if_pos q10]
    split_ifs with he
    · exact (altScreen47_ok enable) _
    · exact (altScreen47_ok enable) s
  rw [if_neg q10]
  by_cases q11 : mode = str "47"
  · rw [if_pos q11]
    exact (altScreen47_ok enable) s
  rw [if_neg q11]
  by_cases q12 : mode = str "2004"
  · rw [if_pos q12]
    exact ⟨rfl, rfl, rfl, fun _ _ c => c⟩
  rw [if_neg q12]
  exact stepOK_id s

theorem escapePrivateMode_ok (msg : List Nat) (enable : Bool) :
    StepOK (fun s => escapePrivateMode s msg enable) :=
  stepOK_congr (fun _ => rfl)
    (stepOK_foldl _ (fun m => privateModeOne_ok m enable) (goSplit 59 msg))

theorem escapeMode_ok (msg : List Nat) (enable : Bool) :
    StepOK (fun s => escapeMode s msg enable) := by
  refine stepOK_congr (fun _ => rfl) (stepOK_foldl _ ?_ (goSplit 59 msg))
  intro m s
  dsimp only
  split_ifs <;> exact ⟨rfl, rfl, rfl, fun _ _ c => c⟩

theorem escapePrivateModeOn_ok (msg : List Nat) :
    StepOK (fun s => escapePrivateModeOn s msg) := by
  intro s
  unfold escapePrivateModeOn
  split_ifs
  · exact escapePrivateMode_ok _ true s
  · exact escapeMode_ok _ true s

theorem escapePrivateModeOff_ok (msg : List Nat) :
    StepOK (fun s => escapePrivateModeOff s msg) := by
  intro s
  unfold escapePrivateModeOff
  split_ifs
  · exact escapePrivateMode_ok _ false s
  · exact escapeMode_ok _ false s

theorem escapeScrollUp_ok (msg : List Nat) :
    StepOK (fun s => escapeScrollUp s msg) := by
  intro s
  unfold escapeScrollUp
  dsimp only
  refine ⟨by rw [moveCursor_config], by rw [moveCursor_config],
    by rw [moveCursor_usedDecrc], fun a b _ => moveCursor_inv _ _ _ a b⟩

theorem resetTerminal_ok : StepOK resetTerminal := by
  intro s
  rw [resetTerminal_eq]
  refine ⟨rfl, rfl, rfl, fun a b _ => ?_⟩
  have hc : ¬ (s.config.cols = 0 ∨ s.config.rows = 0) := by omega
  unfold cursorInv
  dsimp only
  rw [if_neg hc, if_neg hc]
  exact ⟨by omega, by omega, fun e => absurd e (by omega)⟩

theorem dispatchEscape_ok (fin : Nat) (msg : List Nat) :
    StepOK (fun s => dispatchEscape s fin msg) := by
  intro s
  unfold dispatchEscape
  dsimp only
  by_cases q0 : fin = 0x40
  · rw [if_pos q0]
    exact escapeInsertChars_ok msg s
  rw [if_neg q0]
  by_cases q1 : fin = 0x41
  · rw [if_pos q1]
    exact escapeMoveCursorUp_ok msg s
  rw [if_neg q1]
  by_cases q2 : fin = 0x42
  · rw [if_pos q2]
    exact escapeMoveCursorDown_ok msg s
  rw [if_neg q2]
  by_cases q3 : fin = 0x43
  · rw [if_pos q3]
    exact escapeMoveCursorRight_ok msg s
  rw [if_neg q3]
  by_cases q4 : fin = 0x44
  · rw [if_pos q4]
    exact escapeMoveCursorLeft_ok msg s
  rw [if_neg q4]
  by_cases q5 : fin = 0x64
  · rw [if_pos q5]
    exact escapeMoveCursorRow_ok msg s
  rw [if_neg q5]
  by_cases q6 : fin = 0x48
  · rw [if_pos q6]
    exact escapeMoveCursor_ok msg s
  rw [if_neg q6]
  by_cases q7 : fin = 0x66
  · rw [if_pos q7]
    exact escapeMoveCursor_ok msg s
  rw [if_neg q7]
  by_cases q8 : fin = 0x47
  · rw [if_pos q8]
    exact escapeMoveCursorCol_ok msg s
  rw [if_neg q8]
  by_cases q9 : fin = 0x68
  · rw [if_pos q9]
    exact escapePrivateModeOn_ok msg s
  rw [if_neg q9]
  by_cases q10 : fin = 0x4C
  · rw [if_pos q10]
    exact escapeInsertLines_ok msg s
  rw [if_neg q10]
  by_cases q11 : fin = 0x6C
  · rw [if_pos q11]
    exact escapePrivateModeOff_ok msg s
  rw [if_neg q11]
  by_cases q12 : fin = 0x6D
  · rw [if_pos q12]
    exact escapeColorMode_ok msg s
  rw [if_neg q12]
  by_cases q13 : fin = 0x6E
  · rw [if_pos q13]
    exact escapeDeviceStatusReport_ok msg s
  rw [if_neg q13]
  by_cases q14 : fin = 0x4A
  · rw [if_pos q14]
    exact escapeEraseInScreen_ok msg s
  rw [if_neg q14]
  by_cases q15 : fin = 0x4B
  · rw [if_pos q15]
    exact escapeEraseInLine_ok msg s
  rw [if_neg q15]
  by_cases q16 : fin = 0x50
  · rw [if_pos q16]
    exact escapeDeleteChars_ok msg s
  rw [if_neg q16]
  by_cases q17 : fin = 0x72
  · rw [if_pos q17]
    exact escapeSetScrollArea_ok msg s
  rw [if_neg q17]
  by_cases q18 : fin = 0x73
  · rw [if_pos q18]
    exact escapeSaveCursor_ok msg s
  rw [if_neg q18]
  by_cases q19 : fin = 0x53
  · rw [if_pos q19]
    exact escapeScrollUp_ok msg s
  rw [if_neg q19]
  by_cases q20 : fin = 0x54
  · rw [if_pos q20]
    exact escapeScrollDown_ok msg s
  rw [if_neg q20]
  by_cases q21 : fin = 0x75
  · rw [if_pos q21]
    exact escapeRestoreCursor_ok msg s
  rw [if_neg q21]
  by_cases q22 : fin = 0x69
  · rw [if_pos q22]
    exact escapePrinterMode_ok msg s
  rw [if_neg q22]
  by_cases q23 : fin = 0x63
  · rw [if_pos q23]
    exact escapeDeviceAttribute_ok msg s
  rw [if_neg q23]
  exact stepOK_id s

theorem handleEscape_ok (code0 : List Nat) :
    StepOK (fun s => handleEscape s code0) := by
  intro s
  unfold handleEscape
  dsimp only
  split_ifs with h1 h2
  · exact stepOK_id s
  · split
    · exact dispatchEscape_ok _ _ s
    · exact stepOK_id s
  · exact ⟨rfl, rfl, rfl, fun _ _ c => c⟩

theorem parseEscape_ok (r : Nat) : StepOK (fun s => parseEscape s r) := by
  intro s
  unfold parseEscape
  dsimp only
  split_ifs with hr
  · obtain ⟨e1, e2, e3, e4⟩ := handleEscape_ok
      ({ s with state := { s.state with code := s.state.code ++ [r] } }).state.code
      { s with state := { s.state with code := s.state.code ++ [r] } }
    exact ⟨e1, e2, e3, fun a b c => e4 a b c⟩
  · exact ⟨rfl, rfl, rfl, fun _ _ c => c⟩

theorem parseAPC_fields (r : Nat) (s : TermState) :
    cursorFieldsEq (parseAPC s r) s := by
  unfold parseAPC
  dsimp only
  split_ifs
  · exact handleAPC_fields _ _
  · exact cfe_refl _

theorem parseOSC_fields (r : Nat) (s : TermState) :
    cursorFieldsEq (parseOSC s r) s := by
  unfold parseOSC
  dsimp only
  split_ifs
  · exact handleOSC_fields _ _
  · exact cfe_refl _

theorem parseDCS_fields (r : Nat) (s : TermState) :
    cursorFieldsEq (parseDCS s r) s := by
  unfold parseDCS
  split_ifs <;> exact cfe_refl _

theorem escapePrinterMode_fields (code : List Nat) (s : TermState) :
    cursorFieldsEq (escapePrinterMode s code) s := by
  unfold escapePrinterMode
  dsimp only
  split_ifs <;> exact cfe_refl _

theorem parsePrinting_fields (bytes : List Nat) (s : TermState) :
    cursorFieldsEq (parsePrinting s bytes) s := by
  unfold parsePrinting
  dsimp only
  split_ifs
  · exact escapePrinterMode_fields _ _
  · exact cfe_refl _

theorem handleDCS_safe (rec : TermState → List Nat → TermState)
    (hrec : ∀ b, SafeStep (fun s => rec s b)) (code : List Nat) :
    SafeStep (fun s => handleDCS rec s code) := by
  intro s
  unfold handleDCS
  dsimp only
  split_ifs
  · exact hrec _ s
  · exact ((stepOK_foldl handleOutputChar handleOutputChar_ok _).safe) s
  · exact hrec _ s
  · exact ((stepOK_foldl handleOutputChar handleOutputChar_ok _).safe) s
  · exact (stepOK_id.safe) s

/-- The three terminator flushes of the `ESC \` (ST) branch. -/
theorem oscFlush_fields (s : TermState) :
    cursorFieldsEq
      (if s.state.osc then
        { handleOSC s s.state.code with
          state := { (handleOSC s s.state.code).state with osc := false } }
      else s) s := by
  split_ifs
  · exact handleOSC_fields _ _
  · exact cfe_refl _

theorem apcFlush_fields (s : TermState) :
    cursorFieldsEq
      (if s.state.apc then
        { handleAPC s s.state.code with
          state := { (handleAPC s s.state.code).state with apc := false } }
      else s) s := by
  split_ifs
  · exact handleAPC_fields _ _
  · exact cfe_refl _

theorem dcsFlush_safe (rec : TermState → List Nat → TermState)
    (hrec : ∀ b, SafeStep (fun s => rec s b)) :
    SafeStep (fun s =>
      if s.state.dcs then
        { handleDCS rec s s.state.code with
          state := { (handleDCS rec s s.state.code).state with dcs := false } }
      else s) := by
  intro s
  dsimp only
  split_ifs
  · obtain ⟨e1, e2, e3, e4⟩ := handleDCS_safe rec hrec s.state.code s
    exact ⟨e1, e2, e3, fun a b c hd => e4 a b c hd⟩
  · exact (stepOK_id.safe) s

theorem parseEscState_safe (rec : TermState → List Nat → TermState)
    (hrec : ∀ b, SafeStep (fun s => rec s b)) (r : Nat) :
    SafeStep (fun s => (parseEscState rec s r).1) := by
  intro s
  unfold parseEscState
  dsimp only
  by_cases q1 : r = 0x5B
  · rw [if_pos q1]
    exact (stepOK_id.safe) s
  rw [if_neg q1]
  by_cases q2 : r = 0x5C
  · rw [if_pos q2]
    dsimp only
    exact (safeStep_comp ((stepOK_of_fields oscFlush_fields).safe)
      (safeStep_comp ((stepOK_of_fields apcFlush_fields).safe)
        (safeStep_comp (dcsFlush_safe rec hrec)
          ((stepOK_of_fields (fun _ => cfe_refl _)).safe)))) s
  rw [if_neg q2]
  by_cases q3 : r = 0x5D
  · rw [if_pos q3]
    exact ⟨rfl, rfl, id, fun _ _ c _ => c⟩
  rw [if_neg q3]
  by_cases q4 : r = 0x50
  · rw [if_pos q4]
    exact ⟨rfl, rfl, id, fun _ _ c _ => c⟩
  rw [if_neg q4]
  by_cases q5 : r = 0x28 ∨ r = 0x29
  · rw [if_pos q5]
    exact ⟨rfl, rfl, id, fun _ _ c _ => c⟩
  rw [if_neg q5]
  by_cases q6 : r = 0x37
  · rw [if_pos q6]
    exact ⟨rfl, rfl, id, fun _ _ c _ => c⟩
  rw [if_neg q6]
  by_cases q7 : r = 0x38
  · rw [if_pos q7]
    refine ⟨rfl, rfl, fun hd => ?_, fun _ _ _ hd => ?_⟩
    · exact absurd (show (true : Bool) = false from hd) (by simp)
    · exact absurd (show (true : Bool) = false from hd) (by simp)
  rw [if_neg q7]
  by_cases q8 : r = 0x44
  · rw [if_pos q8]
    dsimp only
    split_ifs
    · exact ⟨by rw [moveCursor_config], by rw [moveCursor_config],
        by rw [moveCursor_usedDecrc]; exact id,
        fun a b _ _ => moveCursor_inv _ _ _ a b⟩
    · exact ((stepOK_of_fields scrollDown_fields).safe) s
  rw [if_neg q8]
  by_cases q9 : r = 0x45
  · rw [if_pos q9]
    dsimp only
    split_ifs
    · exact ⟨by rw [moveCursor_config], by rw [moveCursor_config],
        by rw [moveCursor_usedDecrc]; exact id,
        fun a b _ _ => moveCursor_inv _ _ _ a b⟩
    · obtain ⟨d1, d2, d3, d4, d5, d6⟩ := scrollDown_fields s
      exact ⟨by rw [moveCursor_config, scrollDown_config],
        by rw [moveCursor_config, scrollDown_config],
        by rw [moveCursor_usedDecrc, scrollDown_usedDecrc]; exact id,
        fun a b _ _ => moveCursor_inv _ _ _
          (by rw [scrollDown_config]; exact a) (by rw [scrollDown_config]; exact b)⟩
  rw [if_neg q9]
  by_cases q10 : r = 0x4D
  · rw [if_pos q10]
    dsimp only
    split_ifs
    · exact ⟨by rw [moveCursor_config], by rw [moveCursor_config],
        by rw [moveCursor_usedDecrc]; exact id,
        fun a b _ _ => moveCursor_inv _ _ _ a b⟩
    · exact ((stepOK_of_fields scrollUp_fields).safe) s
  rw [if_neg q10]
  by_cases q11 : r = 0x63
  · rw [if_pos q11]
    exact (resetTerminal_ok.safe) s
  rw [if_neg q11]
  by_cases q12 : r = 0x5F
  · rw [if_pos q12]
    exact ⟨rfl, rfl, id, fun _ _ c _ => c⟩
  rw [if_neg q12]
  exact (stepOK_id.safe) s

theorem processRune_safe (rec : TermState → List Nat → TermState)
    (hrec : ∀ b, SafeStep (fun s => rec s b)) (i : Int) (r : Nat)
    (bytes : List Nat) :
    SafeStep (fun s => processRune rec s i r bytes) := by
  intro s
  unfold processRune
  dsimp only
  by_cases c1 : s.state.printing
  · rw [if_pos c1]
    exact ((stepOK_of_fields (parsePrinting_fields bytes)).safe) s
  rw [if_neg c1]
  by_cases c2 : r = 0x84
  · rw [if_pos c2]
    split_ifs
    · exact ⟨by rw [moveCursor_config], by rw [moveCursor_config],
        by rw [moveCursor_usedDecrc]; exact id,
        fun a b _ _ => moveCursor_inv _ _ _ a b⟩
    · exact ((stepOK_of_fields scrollDown_fields).safe) s
  rw [if_neg c2]
  by_cases c3 : r = 0x85
  · rw [if_pos c3]
    split_ifs
    · exact ⟨by rw [moveCursor_config], by rw [moveCursor_config],
        by rw [moveCursor_usedDecrc]; exact id,
        fun a b _ _ => moveCursor_inv _ _ _ a b⟩
    · exact ⟨by rw [moveCursor_config, scrollDown_config],
        by rw [moveCursor_config, scrollDown_config],
        by rw [moveCursor_usedDecrc, scrollDown_usedDecrc]; exact id,
        fun a b _ _ => moveCursor_inv _ _ _
          (by rw [scrollDown_config]; exact a) (by rw [scrollDown_config]; exact b)⟩
  rw [if_neg c3]
  by_cases c4 : r = 0x8D
  · rw [if_pos c4]
    split_ifs
    · exact ⟨by rw [moveCursor_config], by rw [moveCursor_config],
        by rw [moveCursor_usedDecrc]; exact id,
        fun a b _ _ => moveCursor_inv _ _ _ a b⟩
    · exact ((stepOK_of_fields scrollUp_fields).safe) s
  rw [if_neg c4]
  by_cases c5 : r = 0x90
  · rw [if_pos c5]
    exact ⟨rfl, rfl, id, fun _ _ c _ => c⟩
  rw [if_neg c5]
  by_cases c6 : r = 0x9B
  · rw [if_pos c6]
    exact ⟨rfl, rfl, id, fun _ _ c _ => c⟩
  rw [if_neg c6]
  by_cases c7 : r = 0x9D
  · rw [if_pos c7]
    exact ⟨rfl, rfl, id, fun _ _ c _ => c⟩
  rw [if_neg c7]
  by_cases c8 : r = 0x9F
  · rw [if_pos c8]
    exact ⟨rfl, rfl, id, fun _ _ c _ => c⟩
  rw [if_neg c8]
  by_cases c9 : s.state.dcs
  · rw [if_pos c9]
    by_cases c9a : s.state.dcsEscPending
    · rw [if_pos c9a]
      by_cases c9b : r = 0x5C
      · rw [if_pos c9b]
        dsimp only
        obtain ⟨e1, e2, e3, e4⟩ := handleDCS_safe rec hrec s.state.code s
        exact ⟨e1, e2, e3, fun a b c hd => e4 a b c hd⟩
      rw [if_neg c9b]
      by_cases c9c : r = asciiEscape
      · rw [if_pos c9c]
        exact ⟨rfl, rfl, id, fun _ _ c _ => c⟩
      rw [if_neg c9c]
      exact ((stepOK_of_fields (parseDCS_fields r)).safe) _
    rw [if_neg c9a]
    by_cases c9d : r = asciiEscape
    · rw [if_pos c9d]
      exact ⟨rfl, rfl, id, fun _ _ c _ => c⟩
    rw [if_neg c9d]
    exact ((stepOK_of_fields (parseDCS_fields r)).safe) s
  rw [if_neg c9]
  by_cases c10 : s.state.csi
  · rw [if_pos c10]
    obtain ⟨e1, e2, e3, e4⟩ := parseEscape_ok r s
    split_ifs
    · exact ⟨e1, e2, fun hd => by rw [← e3]; exact hd, fun a b c _ => e4 a b c⟩
    · exact ⟨e1, e2, fun hd => by rw [← e3]; exact hd, fun a b c _ => e4 a b c⟩
  rw [if_neg c10]
  by_cases c11 : r = asciiEscape
  · rw [if_pos c11]
    exact ⟨rfl, rfl, id, fun _ _ c _ => c⟩
  rw [if_neg c11]
  by_cases c12 : s.state.esc = i - 1
  · rw [if_pos c12]
    obtain ⟨e1, e2, e3, e4⟩ := parseEscState_safe rec hrec r s
    dsimp only at e1 e2 e3 e4
    rcases hps : parseEscState rec s r with ⟨st1, cont⟩
    rw [hps] at e1 e2 e3 e4
    dsimp only at e1 e2 e3 e4 ⊢
    cases cont
    · exact ⟨e1, e2, e3, fun a b c hd => e4 a b c hd⟩
    · exact ⟨e1, e2, e3, fun a b c hd => e4 a b c hd⟩
  rw [if_neg c12]
  by_cases c13 : s.state.apc
  · rw [if_pos c13]
    exact ((stepOK_of_fields (parseAPC_fields r)).safe) s
  rw [if_neg c13]
  by_cases c14 : s.state.osc
  · rw [if_pos c14]
    exact ((stepOK_of_fields (parseOSC_fields r)).safe) s
  rw [if_neg c14]
  by_cases c15 : s.state.vt100 ≠ 0
  · rw [if_pos c15]
    dsimp only
    obtain ⟨e1, e2, e3, e4⟩ := handleVT100_ok [s.state.vt100, r] s
    exact ⟨e1, e2, fun hd => by rw [← e3]; exact hd, fun a b c _ => e4 a b c⟩
  rw [if_neg c15]
  by_cases c16 : s.state.esc ≠ noEscape
  · rw [if_pos c16]
    exact ((parseEscape_ok r).safe) s
  rw [if_neg c16]
  by_cases c17 : r = 7
  · rw [if_pos c17]
    exact (ringBell_ok.safe) s
  rw [if_neg c17]
  by_cases c18 : r = 8
  · rw [if_pos c18]
    exact (handleOutputBackspace_ok.safe) s
  rw [if_neg c18]
  by_cases c19 : r = 10 ∨ r = 11 ∨ r = 12
  · rw [if_pos c19]
    exact (handleOutputLineFeed_ok.safe) s
  rw [if_neg c19]
  by_cases c20 : r = 13
  · rw [if_pos c20]
    exact (handleOutputCarriageReturn_ok.safe) s
  rw [if_neg c20]
  by_cases c21 : r = 9
  · rw [if_pos c21]
    exact (handleOutputTab_ok.safe) s
  rw [if_neg c21]
  by_cases c22 : r = 0x0E
  · rw [if_pos c22]
    exact (handleShiftOut_ok.safe) s
  rw [if_neg c22]
  by_cases c23 : r = 0x0F
  · rw [if_pos c23]
    exact (handleShiftIn_ok.safe) s
  rw [if_neg c23]
  by_cases c24 : s.useG1CharSet
  · rw [if_pos c24]
    exact ((handleOutputChar_ok _).safe) s
  rw [if_neg c24]
  exact ((handleOutputChar_ok _).safe) s

theorem runChunk_safe (rec : TermState → List Nat → TermState)
    (hrec : ∀ b, SafeStep (fun s => rec s b)) :
    ∀ (fuel : Nat) (buf : List Nat) (ofs : Int),
      SafeStep (fun s => (runChunk rec fuel s buf ofs).1) := by
  intro fuel
  induction fuel with
  | zero =>
    intro buf ofs s
    exact (stepOK_id.safe) s
  | succ n ih =>
    intro buf ofs s
    have he : runChunk rec (n + 1) s buf ofs
        = (if s.panicked then (s, buf, ofs - 1)
          else match buf with
            | [] => (s, [], ofs - 1)
            | _ :: _ =>
              let (r, size) := decodeRune buf
              let st' :=
                if r = 0xFFFD ∧ size = 1 ∧ ¬ s.state.printing then s
                else processRune rec s (ofs - 1) r (buf.take size)
              runChunk rec n st' (buf.drop size) (ofs + size)) := rfl
    dsimp only
    rw [he]
    by_cases hp : s.panicked
    · rw [if_pos hp]
      exact (stepOK_id.safe) s
    rw [if_neg hp]
    cases buf with
    | nil => exact (stepOK_id.safe) s
    | cons b rest =>
      dsimp only
      rcases hdec : decodeRune (b :: rest) with ⟨r, size⟩
      dsimp only
      have hg : SafeStep (fun u =>
          if r = 0xFFFD ∧ size = 1 ∧ ¬ u.state.printing then u
          else processRune rec u (ofs - 1) r ((b :: rest).take size)) := by
        intro u
        dsimp only
        split_ifs
        · exact (stepOK_id.safe) u
        · exact processRune_safe rec hrec (ofs - 1) r _ u
      exact (safeStep_comp hg (ih ((b :: rest).drop size) (ofs + size))) s

theorem handleOutputFuel_safe : ∀ (fuel : Nat) (buf : List Nat),
    SafeStep (fun s => (handleOutputFuel fuel s buf).1) := by
  intro fuel
  induction fuel with
  | zero =>
    intro buf s
    exact (stepOK_id.safe) s
  | succ n ih =>
    intro buf s
    have hrec : ∀ b, SafeStep (fun s => (handleOutputFuel n s b).1) := fun b => ih b
    obtain ⟨f1, f2, f3, f4⟩ := runChunk_safe _ hrec buf.length buf 0 s
    dsimp only at f1 f2 f3 f4
    rcases hrc : runChunk (fun s b => (handleOutputFuel n s b).1) buf.length s buf 0
      with ⟨st1, rest1, i1⟩
    rw [hrc] at f1 f2 f3 f4
    dsimp only at f1 f2 f3 f4
    have hb : handleOutputFuel (n + 1) s buf
        = (match runChunk (fun s b => (handleOutputFuel n s b).1) buf.length s buf 0 with
           | (st, rest, i) =>
             (if st.state.esc ≠ noEscape ∧ ¬ st.panicked then
                { st with state := { st.state with esc := st.state.esc - i } }
              else st, rest)) := rfl
    have he : (handleOutputFuel (n + 1) s buf).1
        = if st1.state.esc ≠ noEscape ∧ ¬ st1.panicked then
            { st1 with state := { st1.state with esc := st1.state.esc - i1 } }
          else st1 := by
      rw [hb, hrc]
    dsimp only
    rw [he]
    split_ifs
    · exact ⟨f1, f2, f3, fun a b c hd => f4 a b c hd⟩
    · exact ⟨f1, f2, f3, f4⟩

/-- Claim C1 (amended): along any processing path on which the `ESC 8`
(DECRC) restore branch is never executed — witnessed by the ghost flag
`usedDecrc` remaining `false` — `handleOutput` preserves the cursor
invariant: `cursorRow < Rows`, `cursorCol ≤ Columns`, and
`cursorCol = Columns` only while a wrap is pending. -/
theorem cursor_invariant_no_decrc (st : TermState) (buf : List Nat)
    (h1 : 1 ≤ st.config.rows) (h2 : 1 ≤ st.config.cols) (hinv : cursorInv st)
    (hd : (handleOutput st buf).1.usedDecrc = false) :
    cursorInv (handleOutput st buf).1 := by
  have h := handleOutputFuel_safe (buf.length + st.state.code.length + 2) buf st
  exact h.2.2.2 h1 h2 hinv hd

/-- The cursor-invariant theorem applied to a concrete run (a 2×3 terminal
consuming four printable characters). -/
theorem cursor_invariant_no_decrc_witness :
    1 ≤ (initialTerminal 2 3).config.rows ∧ 1 ≤ (initialTerminal 2 3).config.cols
      ∧ cursorInv (initialTerminal 2 3)
      ∧ (handleOutput (initialTerminal 2 3) [97, 98, 99, 100]).1.usedDecrc = false
      ∧ cursorInv (handleOutput (initialTerminal 2 3) [97, 98, 99, 100]).1 :=
  ⟨by decide, by decide, ⟨by decide, by decide, by decide⟩, by decide,
   cursor_invariant_no_decrc (initialTerminal 2 3) [97, 98, 99, 100] (by decide)
     (by decide) ⟨by decide, by decide, by decide⟩ (by decide)⟩

end Terminal
